import Mathlib

/-!
Verification development for the F1 Strategy Agent core: the strategy-DSL
parser (`parseStrategyDSL`) and the race simulation engine (`simulateRace`),
embedded shallowly from the TypeScript sources.

Numeric model: the source manipulates JavaScript numbers with formulas over
decimal constants; we embed them as exact fractions.  `Q` is an unnormalized
fraction type (integer numerator, positive integer denominator) whose
operations reduce in the kernel; `Q.toRat` maps it to `ℚ` for order
reasoning.  Positions, lap counts and field sizes are natural numbers.
-/

/-- Exact fraction with a positive denominator (unnormalized).  Models the
real-number value of a JavaScript number expression. -/
structure Q where
  num : ℤ
  den : ℤ
  dpos : 0 < den

def Q.ofNat (n : ℕ) : Q := ⟨(n : ℤ), 1, Int.one_pos⟩

def Q.ofInt (n : ℤ) : Q := ⟨n, 1, Int.one_pos⟩

instance (n : ℕ) : OfNat Q n := ⟨Q.ofNat n⟩

/-- Decimal literals: `0.3 : Q` is exactly 3/10. -/
instance : OfScientific Q where
  ofScientific m b e :=
    if b then ⟨(m : ℤ), (10 ^ e : ℕ), by positivity⟩
    else ⟨(m : ℤ) * (10 ^ e : ℕ), 1, Int.one_pos⟩

def Q.add (a b : Q) : Q :=
  ⟨a.num * b.den + b.num * a.den, a.den * b.den, mul_pos a.dpos b.dpos⟩

def Q.sub (a b : Q) : Q :=
  ⟨a.num * b.den - b.num * a.den, a.den * b.den, mul_pos a.dpos b.dpos⟩

def Q.mul (a b : Q) : Q :=
  ⟨a.num * b.num, a.den * b.den, mul_pos a.dpos b.dpos⟩

/-- Division.  Division by zero is modelled as 0 (it is unreachable in the
embedded code on the inputs the claims quantify over). -/
def Q.div (a b : Q) : Q :=
  if h : 0 < b.num then ⟨a.num * b.den, a.den * b.num, mul_pos a.dpos h⟩
  else if h' : b.num < 0 then ⟨-(a.num * b.den), a.den * (-b.num), mul_pos a.dpos (by omega)⟩
  else ⟨0, 1, Int.one_pos⟩

instance : Add Q := ⟨Q.add⟩
instance : Sub Q := ⟨Q.sub⟩
instance : Mul Q := ⟨Q.mul⟩
instance : Div Q := ⟨Q.div⟩

def Q.le (a b : Q) : Prop := a.num * b.den ≤ b.num * a.den

def Q.lt (a b : Q) : Prop := a.num * b.den < b.num * a.den

instance : LE Q := ⟨Q.le⟩
instance : LT Q := ⟨Q.lt⟩

instance (a b : Q) : Decidable (a ≤ b) :=
  inferInstanceAs (Decidable (a.num * b.den ≤ b.num * a.den))

instance (a b : Q) : Decidable (a < b) :=
  inferInstanceAs (Decidable (a.num * b.den < b.num * a.den))

instance : Min Q := ⟨fun a b => if a ≤ b then a else b⟩
instance : Max Q := ⟨fun a b => if a ≤ b then b else a⟩

/-- `Math.floor` on an exact fraction. -/
def Q.floor (a : Q) : ℤ := a.num.fdiv a.den

/-- Value of a `Q` as a rational number, for order reasoning. -/
def Q.toRat (a : Q) : ℚ := (a.num : ℚ) / (a.den : ℚ)

instance : DecidableEq Q := fun a b =>
  if h : a.num = b.num ∧ a.den = b.den then
    isTrue (by cases a; cases b; simp_all)
  else
    isFalse (fun heq => h (by cases heq; exact ⟨rfl, rfl⟩))

-- ===========================================================================
-- Core type definitions (src/lib/types.ts)
-- ===========================================================================

inductive Weather | cool | normal | hot | wet
deriving DecidableEq

inductive PaceClass | front_runner | midfield | backmarker
deriving DecidableEq

inductive OvertakingDifficulty | easy | medium | hard
deriving DecidableEq

inductive RiskProfile | conservative | balanced | aggressive
deriving DecidableEq

inductive TireCompound | SOFT | MEDIUM | HARD | INTERMEDIATE | WET
deriving DecidableEq

inductive AeroClassification | downforce_reliant | drag_reliant | balanced
deriving DecidableEq

structure RaceConfig where
  trackName : String
  totalLaps : ℕ
  weather : Weather
  fieldSize : ℕ
deriving DecidableEq

structure CarProfile where
  startingGridPosition : ℕ
  paceClass : PaceClass
  riskProfile : RiskProfile
  targetMinPosition : Option ℕ
deriving DecidableEq

structure CriticalTurn where
  turnNumber : ℕ
  name : String
  riskTags : List String
  note : String
deriving DecidableEq

structure PreviousWinnerStint where
  tireCompound : TireCompound
  laps : ℕ
deriving DecidableEq

structure PreviousWinnerStrategy where
  year : ℕ
  label : String
  stints : List PreviousWinnerStint
deriving DecidableEq

structure TrackProfile where
  aeroClassification : AeroClassification
  overtakingDifficulty : OvertakingDifficulty
  overtakingChance : Q
  criticalTurns : List CriticalTurn
  previousWinnerStrategy : Option PreviousWinnerStrategy
deriving DecidableEq

structure Stint where
  stintNumber : ℕ
  tireCompound : TireCompound
  lapsInStint : ℕ
deriving DecidableEq

structure Strategy where
  label : String
  stints : List Stint
deriving DecidableEq

structure ParsedDSL where
  raceConfig : RaceConfig
  carProfile : CarProfile
  trackProfile : TrackProfile
  strategy : Strategy
deriving DecidableEq

/-- `section` is a reserved word in Lean, so the TS field `section?` is
embedded as `sectionName`. -/
structure DSLParseError where
  line : ℕ
  message : String
  sectionName : Option String

structure DSLParseResult where
  success : Bool
  data : Option ParsedDSL
  errors : List DSLParseError
  warnings : List String
  rawDSL : String

-- ===========================================================================
-- Character-list string helpers (JS string primitives used by the parser)
-- ===========================================================================

/-- `String.prototype.split('\n')`. -/
def splitLinesAux : List Char → List Char → List (List Char)
  | [], acc => [acc.reverse]
  | c :: rest, acc =>
    if c = '\n' then acc.reverse :: splitLinesAux rest []
    else splitLinesAux rest (c :: acc)

def splitLines (cs : List Char) : List (List Char) := splitLinesAux cs []

def trimLeftCl (cs : List Char) : List Char := cs.dropWhile Char.isWhitespace

/-- `String.prototype.trimEnd()`. -/
def trimRightCl (cs : List Char) : List Char :=
  (cs.reverse.dropWhile Char.isWhitespace).reverse

/-- `String.prototype.trim()`. -/
def trimCl (cs : List Char) : List Char := trimRightCl (trimLeftCl cs)

def toUpperCl (cs : List Char) : List Char := cs.map Char.toUpper

def toLowerCl (cs : List Char) : List Char := cs.map Char.toLower

/-- JS `\w` character class. -/
def isWordChar (c : Char) : Bool := c.isAlphanum || c = '_'

/-- `parseInt` on an all-digit capture. -/
def natOfDigits (cs : List Char) : ℕ :=
  cs.foldl (fun a c => a * 10 + (c.toNat - '0'.toNat)) 0

-- Deterministic matchers for the parser's anchored regular expressions.
-- Each capture class below is followed either by whitespace, by `"`, or by
-- the end of the line, none of which its characters can match, so greedy
-- (maximal-munch) matching is equivalent to the regex semantics.

/-- Match `\s+`: at least one whitespace character, consumed greedily. -/
def wsPlus : List Char → Option (List Char)
  | c :: rest => if c.isWhitespace then some (rest.dropWhile Char.isWhitespace) else none
  | [] => none

/-- Match one or more characters satisfying `p`, greedily. -/
def takeWhile1 (p : Char → Bool) (cs : List Char) : Option (List Char × List Char) :=
  match cs.takeWhile p with
  | [] => none
  | t => some (t, cs.drop t.length)

/-- Match a literal case-insensitively (the parser's regexes carry the `i`
flag). -/
def expectCI : List Char → List Char → Option (List Char)
  | [], cs => some cs
  | k :: ks, c :: cs => if k.toUpper = c.toUpper then expectCI ks cs else none
  | _ :: _, [] => none

/-- Match `"([^"]+)"`. -/
def takeQuoted (cs : List Char) : Option (List Char × List Char) :=
  match cs with
  | '"' :: rest =>
    match takeWhile1 (fun c => c ≠ '"') rest with
    | some (q, rest') =>
      match rest' with
      | '"' :: r2 => some (q, r2)
      | _ => none
    | none => none
  | _ => none

-- ===========================================================================
-- Line matchers (the parser's regex patterns, on trimmed lines)
-- ===========================================================================

/-- `RACE_PATTERN = /^RACE\\s+(\\S+)\\s+LAPS=(\\d+)\\s+WEATHER=(\\w+)\\s+FIELD=(\\d+)$/i` -/
def matchRace (cs : List Char) : Option (List Char × ℕ × List Char × ℕ) :=
  match expectCI "RACE".data cs with
  | none => none
  | some cs =>
  match wsPlus cs with
  | none => none
  | some cs =>
  match takeWhile1 (fun c => ¬ c.isWhitespace) cs with
  | none => none
  | some (name, cs) =>
  match wsPlus cs with
  | none => none
  | some cs =>
  match expectCI "LAPS=".data cs with
  | none => none
  | some cs =>
  match takeWhile1 Char.isDigit cs with
  | none => none
  | some (laps, cs) =>
  match wsPlus cs with
  | none => none
  | some cs =>
  match expectCI "WEATHER=".data cs with
  | none => none
  | some cs =>
  match takeWhile1 isWordChar cs with
  | none => none
  | some (wthr, cs) =>
  match wsPlus cs with
  | none => none
  | some cs =>
  match expectCI "FIELD=".data cs with
  | none => none
  | some cs =>
  match takeWhile1 Char.isDigit cs with
  | none => none
  | some (fld, cs) =>
    if cs = [] then some (name, natOfDigits laps, wthr, natOfDigits fld) else none

/-- The optional `(?:\\s+TARGET=(?:P(\\d+)|NONE))?$` suffix of `CAR_PATTERN`. -/
def matchCarTail (start : ℕ) (pace risk : List Char) (cs : List Char) :
    Option (ℕ × List Char × List Char × Option ℕ) :=
  if cs = [] then some (start, pace, risk, none)
  else
    match wsPlus cs with
    | none => none
    | some cs =>
    match expectCI "TARGET=".data cs with
    | none => none
    | some cs =>
    match expectCI "P".data cs with
    | some cs' =>
      (match takeWhile1 Char.isDigit cs' with
       | none => none
       | some (tgt, cs'') =>
         if cs'' = [] then some (start, pace, risk, some (natOfDigits tgt)) else none)
    | none =>
      match expectCI "NONE".data cs with
      | none => none
      | some cs' => if cs' = [] then some (start, pace, risk, none) else none

/-- `CAR_PATTERN = /^CAR\\s+START=P(\\d+)\\s+PACE=(\\w+)\\s+RISK=(\\w+)(?:\\s+TARGET=(?:P(\\d+)|NONE))?$/i` -/
def matchCar (cs : List Char) : Option (ℕ × List Char × List Char × Option ℕ) :=
  match expectCI "CAR".data cs with
  | none => none
  | some cs =>
  match wsPlus cs with
  | none => none
  | some cs =>
  match expectCI "START=P".data cs with
  | none => none
  | some cs =>
  match takeWhile1 Char.isDigit cs with
  | none => none
  | some (start, cs) =>
  match wsPlus cs with
  | none => none
  | some cs =>
  match expectCI "PACE=".data cs with
  | none => none
  | some cs =>
  match takeWhile1 isWordChar cs with
  | none => none
  | some (pace, cs) =>
  match wsPlus cs with
  | none => none
  | some cs =>
  match expectCI "RISK=".data cs with
  | none => none
  | some cs =>
  match takeWhile1 isWordChar cs with
  | none => none
  | some (risk, cs) => matchCarTail (natOfDigits start) pace risk cs

/-- `TRACK_AERO_PATTERN = /^TRACK\\s+AERO=(\\w+)$/i` -/
def matchTrackAero (cs : List Char) : Option (List Char) :=
  match expectCI "TRACK".data cs with
  | none => none
  | some cs =>
  match wsPlus cs with
  | none => none
  | some cs =>
  match expectCI "AERO=".data cs with
  | none => none
  | some cs =>
  match takeWhile1 isWordChar cs with
  | none => none
  | some (aero, cs) => if cs = [] then some aero else none

/-- `TRACK_OVERTAKING_PATTERN = /^TRACK\\s+OVERTAKING=(\\w+)\\s+CHANCE=([\\d.]+)$/i` -/
def matchTrackOvertaking (cs : List Char) : Option (List Char × List Char) :=
  match expectCI "TRACK".data cs with
  | none => none
  | some cs =>
  match wsPlus cs with
  | none => none
  | some cs =>
  match expectCI "OVERTAKING=".data cs with
  | none => none
  | some cs =>
  match takeWhile1 isWordChar cs with
  | none => none
  | some (ovt, cs) =>
  match wsPlus cs with
  | none => none
  | some cs =>
  match expectCI "CHANCE=".data cs with
  | none => none
  | some cs =>
  match takeWhile1 (fun c => c.isDigit || c = '.') cs with
  | none => none
  | some (chance, cs) => if cs = [] then some (ovt, chance) else none

/-- `STRATEGY_START_PATTERN = /^STRATEGY\\s+"([^"]+)"$/i` -/
def matchStrategyStart (cs : List Char) : Option (List Char) :=
  match expectCI "STRATEGY".data cs with
  | none => none
  | some cs =>
  match wsPlus cs with
  | none => none
  | some cs =>
  match takeQuoted cs with
  | none => none
  | some (label, cs) => if cs = [] then some label else none

/-- `STINT_PATTERN = /^\\s*STINT\\s+(\\d+)\\s+TIRE=(\\w+)\\s+LAPS=(\\d+)$/i`
(the leading `\\s*` is vacuous: lines are trimmed before matching). -/
def matchStint (cs : List Char) : Option (ℕ × List Char × ℕ) :=
  match expectCI "STINT".data cs with
  | none => none
  | some cs =>
  match wsPlus cs with
  | none => none
  | some cs =>
  match takeWhile1 Char.isDigit cs with
  | none => none
  | some (num, cs) =>
  match wsPlus cs with
  | none => none
  | some cs =>
  match expectCI "TIRE=".data cs with
  | none => none
  | some cs =>
  match takeWhile1 isWordChar cs with
  | none => none
  | some (tire, cs) =>
  match wsPlus cs with
  | none => none
  | some cs =>
  match expectCI "LAPS=".data cs with
  | none => none
  | some cs =>
  match takeWhile1 Char.isDigit cs with
  | none => none
  | some (laps, cs) =>
    if cs = [] then some (natOfDigits num, tire, natOfDigits laps) else none

/-- The `RISK=([^\\s]+)\\s+NOTE="([^"]+)"$` suffix of `TURN_PATTERN`. -/
def matchTurnTail (num : ℕ) (name : List Char) (cs : List Char) :
    Option (ℕ × List Char × List Char × List Char) :=
  match expectCI "RISK=".data cs with
  | none => none
  | some cs =>
  match takeWhile1 (fun c => ¬ c.isWhitespace) cs with
  | none => none
  | some (risk, cs) =>
  match wsPlus cs with
  | none => none
  | some cs =>
  match expectCI "NOTE=".data cs with
  | none => none
  | some cs =>
  match takeQuoted cs with
  | none => none
  | some (note, cs) => if cs = [] then some (num, name, risk, note) else none

/-- `TURN_PATTERN = /^\\s*TURN\\s+(\\d+)\\s+NAME="([^"]+)"\\s+RISK=([^\\s]+)\\s+NOTE="([^"]+)"$/i` -/
def matchTurn (cs : List Char) : Option (ℕ × List Char × List Char × List Char) :=
  match expectCI "TURN".data cs with
  | none => none
  | some cs =>
  match wsPlus cs with
  | none => none
  | some cs =>
  match takeWhile1 Char.isDigit cs with
  | none => none
  | some (num, cs) =>
  match wsPlus cs with
  | none => none
  | some cs =>
  match expectCI "NAME=".data cs with
  | none => none
  | some cs =>
  match takeQuoted cs with
  | none => none
  | some (name, cs) =>
  match wsPlus cs with
  | none => none
  | some cs => matchTurnTail (natOfDigits num) name cs

/-- `PREVIOUS_WINNER_YEAR_PATTERN = /^\\s*YEAR=(\\d+)\\s+LABEL="([^"]+)"$/i` -/
def matchPWYear (cs : List Char) : Option (ℕ × List Char) :=
  match expectCI "YEAR=".data cs with
  | none => none
  | some cs =>
  match takeWhile1 Char.isDigit cs with
  | none => none
  | some (year, cs) =>
  match wsPlus cs with
  | none => none
  | some cs =>
  match expectCI "LABEL=".data cs with
  | none => none
  | some cs =>
  match takeQuoted cs with
  | none => none
  | some (label, cs) => if cs = [] then some (natOfDigits year, label) else none

/-- `PREVIOUS_WINNER_STINT_PATTERN = /^\\s*TIRE=(\\w+)\\s+LAPS=(\\d+)$/i` -/
def matchPWStint (cs : List Char) : Option (List Char × ℕ) :=
  match expectCI "TIRE=".data cs with
  | none => none
  | some cs =>
  match takeWhile1 isWordChar cs with
  | none => none
  | some (tire, cs) =>
  match wsPlus cs with
  | none => none
  | some cs =>
  match expectCI "LAPS=".data cs with
  | none => none
  | some cs =>
  match takeWhile1 Char.isDigit cs with
  | none => none
  | some (laps, cs) => if cs = [] then some (tire, natOfDigits laps) else none

-- ===========================================================================
-- Enum validation helpers (isValidWeather .. isValidTire); each receives the
-- already-lowercased (resp. uppercased) capture and yields the enum value.
-- ===========================================================================

def toWeather (s : List Char) : Option Weather :=
  if s = "cool".data then some .cool
  else if s = "normal".data then some .normal
  else if s = "hot".data then some .hot
  else if s = "wet".data then some .wet
  else none

def toPaceClass (s : List Char) : Option PaceClass :=
  if s = "front_runner".data then some .front_runner
  else if s = "midfield".data then some .midfield
  else if s = "backmarker".data then some .backmarker
  else none

def toRiskProfile (s : List Char) : Option RiskProfile :=
  if s = "conservative".data then some .conservative
  else if s = "balanced".data then some .balanced
  else if s = "aggressive".data then some .aggressive
  else none

def toOvertaking (s : List Char) : Option OvertakingDifficulty :=
  if s = "easy".data then some .easy
  else if s = "medium".data then some .medium
  else if s = "hard".data then some .hard
  else none

def toAero (s : List Char) : Option AeroClassification :=
  if s = "downforce_reliant".data then some .downforce_reliant
  else if s = "drag_reliant".data then some .drag_reliant
  else if s = "balanced".data then some .balanced
  else none

def toTire (s : List Char) : Option TireCompound :=
  if s = "SOFT".data then some .SOFT
  else if s = "MEDIUM".data then some .MEDIUM
  else if s = "HARD".data then some .HARD
  else if s = "INTERMEDIATE".data then some .INTERMEDIATE
  else if s = "WET".data then some .WET
  else none

/-- `parseFloat` restricted to a `[\d.]+` capture: reads the longest prefix of
the form `digits`, `digits.digits`, `.digits` or `digits.`; `none` models the
`NaN` result when no digit is readable. -/
def jsParseFloat (cs : List Char) : Option Q :=
  let intPart := cs.takeWhile Char.isDigit
  let rest := cs.drop intPart.length
  match rest with
  | '.' :: tl =>
    let fracPart := tl.takeWhile Char.isDigit
    if intPart = [] ∧ fracPart = [] then none
    else
      some ⟨(natOfDigits intPart * 10 ^ fracPart.length + natOfDigits fracPart : ℕ),
            ((10 : ℕ) ^ fracPart.length : ℕ), by positivity⟩
  | _ =>
    if intPart = [] then none
    else some ⟨(natOfDigits intPart : ℕ), 1, Int.one_pos⟩

-- ===========================================================================
-- Parser state (the closure-captured mutable locals of parseStrategyDSL)
-- ===========================================================================

/-- The TS parser stores the raw enum captures into the typed document via
unchecked casts (`as Weather`, `as PaceClass`, ...) after recording a
diagnostic when the capture is invalid.  An invalid capture therefore always
comes with a blocking diagnostic, and before the parse fails the stored value
is only ever compared against specific valid enum values (`'wet'`,
`'INTERMEDIATE'`, `'WET'`), which an invalid capture can never equal.  We
embed the cast of an invalid capture as a fixed placeholder that is likewise
distinct from those values (`normal` for weather, `SOFT` for tires). -/
structure PState where
  lineIndex : ℕ
  errors : List DSLParseError
  raceConfig : Option RaceConfig
  carProfile : Option CarProfile
  trackAero : Option AeroClassification
  trackOvertaking : Option OvertakingDifficulty
  trackChance : Option Q
  strategy : Option Strategy
  criticalTurns : List CriticalTurn
  previousWinner : Option PreviousWinnerStrategy

def addErrorAt (st : PState) (msg : String) (sec : Option String) : PState :=
  { st with errors := st.errors ++ [⟨st.lineIndex + 1, msg, sec⟩] }

def lineAt (lines : List (List Char)) (i : ℕ) : List Char := lines.getD i []

/-- The `skipEmpty` helper: advance past lines whose trim is empty.  The fuel
argument (always `lines.length`) bounds the iteration count. -/
def skipEmpty (lines : List (List Char)) : ℕ → ℕ → ℕ
  | _, 0 => 0
  | i, fuel + 1 =>
    if i < lines.length then
      if trimCl (lineAt lines i) = [] then skipEmpty lines (i + 1) fuel else i
    else i

def runSkipEmpty (lines : List (List Char)) (st : PState) : PState :=
  { st with lineIndex := skipEmpty lines st.lineIndex (lines.length + 1) }

-- Parse RACE line
def parseRaceSec (lines : List (List Char)) (st : PState) : PState :=
  let st := runSkipEmpty lines st
  if st.lineIndex ≥ lines.length then addErrorAt st "Missing RACE line" (some "RACE")
  else
    let line := trimCl (lineAt lines st.lineIndex)
    match matchRace line with
    | none =>
      { addErrorAt st ("Invalid RACE line format: \"" ++ String.mk line ++ "\"") (some "RACE") with
        lineIndex := st.lineIndex + 1 }
    | some (trackName, laps, weatherRaw, field) =>
      let wlow := toLowerCl weatherRaw
      let st := if (toWeather wlow).isNone then
          addErrorAt st ("Invalid weather: \"" ++ String.mk weatherRaw ++
            "\". Must be one of: cool, normal, hot, wet") (some "RACE")
        else st
      let st := if laps < 1 ∨ laps > 100 then
          addErrorAt st ("Invalid lap count: " ++ Nat.repr laps ++
            ". Must be between 1 and 100") (some "RACE")
        else st
      let st := if field < 2 ∨ field > 30 then
          addErrorAt st ("Invalid field size: " ++ Nat.repr field ++
            ". Must be between 2 and 30") (some "RACE")
        else st
      { st with
        raceConfig := some { trackName := String.mk (toUpperCl trackName), totalLaps := laps,
                             weather := (toWeather wlow).getD .normal, fieldSize := field },
        lineIndex := st.lineIndex + 1 }

-- Parse CAR line
def parseCarSec (lines : List (List Char)) (st : PState) : PState :=
  let st := runSkipEmpty lines st
  if st.lineIndex ≥ lines.length then addErrorAt st "Missing CAR line" (some "CAR")
  else
    let line := trimCl (lineAt lines st.lineIndex)
    match matchCar line with
    | none =>
      { addErrorAt st ("Invalid CAR line format: \"" ++ String.mk line ++ "\"") (some "CAR") with
        lineIndex := st.lineIndex + 1 }
    | some (start, paceRaw, riskRaw, target) =>
      let plow := toLowerCl paceRaw
      let rlow := toLowerCl riskRaw
      let st := if (toPaceClass plow).isNone then
          addErrorAt st ("Invalid pace class: \"" ++ String.mk paceRaw ++
            "\". Must be one of: front_runner, midfield, backmarker") (some "CAR")
        else st
      let st := if (toRiskProfile rlow).isNone then
          addErrorAt st ("Invalid risk profile: \"" ++ String.mk riskRaw ++
            "\". Must be one of: conservative, balanced, aggressive") (some "CAR")
        else st
      { st with
        carProfile := some { startingGridPosition := start,
                             paceClass := (toPaceClass plow).getD .midfield,
                             riskProfile := (toRiskProfile rlow).getD .balanced,
                             targetMinPosition := target },
        lineIndex := st.lineIndex + 1 }

-- Parse TRACK lines (AERO and OVERTAKING)
def parseTrackSec (lines : List (List Char)) (st : PState) : PState :=
  let st := runSkipEmpty lines st
  if st.lineIndex ≥ lines.length then addErrorAt st "Missing TRACK AERO line" (some "TRACK")
  else
    let line := trimCl (lineAt lines st.lineIndex)
    let st :=
      match matchTrackAero line with
      | none =>
        addErrorAt st ("Invalid TRACK AERO line format: \"" ++ String.mk line ++ "\"") (some "TRACK")
      | some aeroRaw =>
        let alow := toLowerCl aeroRaw
        match toAero alow with
        | none =>
          addErrorAt st ("Invalid aero classification: \"" ++ String.mk alow ++
            "\". Must be one of: downforce_reliant, drag_reliant, balanced") (some "TRACK")
        | some aero => { st with trackAero := some aero }
    let st := { st with lineIndex := st.lineIndex + 1 }
    let st := runSkipEmpty lines st
    if st.lineIndex ≥ lines.length then addErrorAt st "Missing TRACK OVERTAKING line" (some "TRACK")
    else
      let line := trimCl (lineAt lines st.lineIndex)
      let st :=
        match matchTrackOvertaking line with
        | none =>
          addErrorAt st ("Invalid TRACK OVERTAKING line format: \"" ++ String.mk line ++ "\"")
            (some "TRACK")
        | some (ovtRaw, chanceRaw) =>
          let olow := toLowerCl ovtRaw
          let st :=
            match toOvertaking olow with
            | none =>
              addErrorAt st ("Invalid overtaking difficulty: \"" ++ String.mk olow ++
                "\". Must be one of: easy, medium, hard") (some "TRACK")
            | some ovk => { st with trackOvertaking := some ovk }
          -- The interpolated `${chance}` in the TS message is rendered here
          -- from the captured text; JS float-to-string formatting is not
          -- modelled (no claim depends on diagnostic message text).
          match jsParseFloat chanceRaw with
          | some c =>
            if c < 0 ∨ (1 : Q) < c then
              addErrorAt st ("Invalid overtaking chance: " ++ String.mk chanceRaw ++
                ". Must be between 0.0 and 1.0") (some "TRACK")
            else { st with trackChance := some c }
          | none =>
            -- parseFloat yielded NaN; both range comparisons are false in JS,
            -- so the NaN is stored.  The stored chance only ever flows into
            -- lap-time terms; the NaN is modelled as 0.
            { st with trackChance := some 0 }
      { st with lineIndex := st.lineIndex + 1 }

-- The STINT-collecting loop of parseStrategy
def stintLoop (lines : List (List Char)) :
    ℕ → ℕ → List DSLParseError → List Stint → ℕ × List DSLParseError × List Stint
  | 0, i, errs, stints => (i, errs, stints)
  | fuel + 1, i, errs, stints =>
    if i < lines.length then
      let line := trimCl (lineAt lines i)
      if toUpperCl line = "END".data then (i + 1, errs, stints)
      else if line = [] then stintLoop lines fuel (i + 1) errs stints
      else
        match matchStint line with
        | none =>
          stintLoop lines fuel (i + 1)
            (errs ++ [⟨i + 1, "Invalid STINT line: \"" ++ String.mk line ++ "\"", some "STRATEGY"⟩])
            stints
        | some (num, tireRaw, laps) =>
          let tireUpper := toUpperCl tireRaw
          let errs := errs ++
            (if (toTire tireUpper).isNone then
              [⟨i + 1, "Invalid tire compound: \"" ++ String.mk tireRaw ++
                "\". Must be one of: SOFT, MEDIUM, HARD, INTERMEDIATE, WET", some "STRATEGY"⟩]
            else [])
          let errs := errs ++
            (if laps < 1 then
              [⟨i + 1, "Invalid stint laps: " ++ Nat.repr laps ++ ". Must be at least 1",
                some "STRATEGY"⟩]
            else [])
          stintLoop lines fuel (i + 1) errs
            (stints ++ [{ stintNumber := num, tireCompound := (toTire tireUpper).getD .SOFT,
                          lapsInStint := laps }])
    else (i, errs, stints)

-- Parse STRATEGY block
def parseStrategySec (lines : List (List Char)) (st : PState) : PState :=
  let st := runSkipEmpty lines st
  if st.lineIndex ≥ lines.length then addErrorAt st "Missing STRATEGY block" (some "STRATEGY")
  else
    let line := trimCl (lineAt lines st.lineIndex)
    match matchStrategyStart line with
    | none =>
      { addErrorAt st ("Invalid STRATEGY start line: \"" ++ String.mk line ++ "\"")
          (some "STRATEGY") with
        lineIndex := st.lineIndex + 1 }
    | some label =>
      let (i', errs', stints) :=
        stintLoop lines (lines.length + 1) (st.lineIndex + 1) st.errors []
      let st := { st with lineIndex := i', errors := errs' }
      let st := if stints.length = 0 then
          addErrorAt st "STRATEGY block must contain at least one STINT" (some "STRATEGY")
        else st
      { st with strategy := some { label := String.mk label, stints := stints } }

/-- `riskStr.split(',')`. -/
def splitCommaAux : List Char → List Char → List (List Char)
  | [], acc => [acc.reverse]
  | c :: rest, acc =>
    if c = ',' then acc.reverse :: splitCommaAux rest []
    else splitCommaAux rest (c :: acc)

-- The TURN-collecting loop of parseCriticalTurns
def turnLoop (lines : List (List Char)) :
    ℕ → ℕ → List DSLParseError → List CriticalTurn → ℕ × List DSLParseError × List CriticalTurn
  | 0, i, errs, turns => (i, errs, turns)
  | fuel + 1, i, errs, turns =>
    if i < lines.length then
      let line := trimCl (lineAt lines i)
      if toUpperCl line = "END".data then (i + 1, errs, turns)
      else if line = [] then turnLoop lines fuel (i + 1) errs turns
      else
        match matchTurn line with
        | none =>
          turnLoop lines fuel (i + 1)
            (errs ++ [⟨i + 1, "Invalid TURN line: \"" ++ String.mk line ++ "\"",
              some "CRITICAL_TURNS"⟩])
            turns
        | some (num, name, riskRaw, note) =>
          let riskTags := (splitCommaAux riskRaw []).map fun t => String.mk (toLowerCl (trimCl t))
          turnLoop lines fuel (i + 1) errs
            (turns ++ [{ turnNumber := num, name := String.mk name, riskTags := riskTags,
                         note := String.mk note }])
    else (i, errs, turns)

-- Parse CRITICAL_TURNS block (optional)
def parseCriticalTurnsSec (lines : List (List Char)) (st : PState) : PState :=
  let st := runSkipEmpty lines st
  if st.lineIndex ≥ lines.length then st
  else
    let line := trimCl (lineAt lines st.lineIndex)
    if toUpperCl line ≠ "CRITICAL_TURNS".data then st
    else
      let (i', errs', turns) :=
        turnLoop lines (lines.length + 1) (st.lineIndex + 1) st.errors st.criticalTurns
      { st with lineIndex := i', errors := errs', criticalTurns := turns }

-- The skip-to-END recovery loop of parsePreviousWinner
def skipToEndLoop (lines : List (List Char)) : ℕ → ℕ → ℕ
  | 0, i => i
  | fuel + 1, i =>
    if i < lines.length ∧ toUpperCl (trimCl (lineAt lines i)) ≠ "END".data then
      skipToEndLoop lines fuel (i + 1)
    else i

-- The stint-collecting loop of parsePreviousWinner
def pwStintLoop (lines : List (List Char)) :
    ℕ → ℕ → List DSLParseError → List PreviousWinnerStint →
      ℕ × List DSLParseError × List PreviousWinnerStint
  | 0, i, errs, sts => (i, errs, sts)
  | fuel + 1, i, errs, sts =>
    if i < lines.length then
      let line := trimCl (lineAt lines i)
      if toUpperCl line = "END".data then (i + 1, errs, sts)
      else if line = [] then pwStintLoop lines fuel (i + 1) errs sts
      else
        match matchPWStint line with
        | none =>
          pwStintLoop lines fuel (i + 1)
            (errs ++ [⟨i + 1, "Invalid PREVIOUS_WINNER stint line: \"" ++ String.mk line ++ "\"",
              some "PREVIOUS_WINNER"⟩])
            sts
        | some (tireRaw, laps) =>
          let tireUpper := toUpperCl tireRaw
          let errs := errs ++
            (if (toTire tireUpper).isNone then
              [⟨i + 1, "Invalid tire compound in PREVIOUS_WINNER: \"" ++ String.mk tireRaw ++ "\"",
                some "PREVIOUS_WINNER"⟩]
            else [])
          pwStintLoop lines fuel (i + 1) errs
            (sts ++ [{ tireCompound := (toTire tireUpper).getD .SOFT, laps := laps }])
    else (i, errs, sts)

-- Parse PREVIOUS_WINNER block (optional)
def parsePreviousWinnerSec (lines : List (List Char)) (st : PState) : PState :=
  let st := runSkipEmpty lines st
  if st.lineIndex ≥ lines.length then st
  else
    let line := trimCl (lineAt lines st.lineIndex)
    if toUpperCl line ≠ "PREVIOUS_WINNER".data then st
    else
      let st := runSkipEmpty lines { st with lineIndex := st.lineIndex + 1 }
      if st.lineIndex ≥ lines.length then
        addErrorAt st "PREVIOUS_WINNER block is empty" (some "PREVIOUS_WINNER")
      else
        let line := trimCl (lineAt lines st.lineIndex)
        match matchPWYear line with
        | none =>
          let st := addErrorAt st ("Invalid PREVIOUS_WINNER year line: \"" ++ String.mk line ++ "\"")
            (some "PREVIOUS_WINNER")
          let i' := skipToEndLoop lines (lines.length + 1) st.lineIndex
          { st with lineIndex := if i' < lines.length then i' + 1 else i' }
        | some (year, label) =>
          let st := runSkipEmpty lines { st with lineIndex := st.lineIndex + 1 }
          if st.lineIndex ≥ lines.length then
            { st with previousWinner := some { year := year, label := String.mk label, stints := [] } }
          else
            let line := trimCl (lineAt lines st.lineIndex)
            if toUpperCl line ≠ "STINTS:".data then
              { st with previousWinner := some { year := year, label := String.mk label, stints := [] } }
            else
              let (i', errs', sts) :=
                pwStintLoop lines (lines.length + 1) (st.lineIndex + 1) st.errors []
              let st := { st with lineIndex := i', errors := errs' }
              { st with previousWinner := some { year := year, label := String.mk label, stints := sts } }

-- ===========================================================================
-- Post-parse validation and result assembly
-- ===========================================================================

def sumStintLaps (stints : List Stint) : ℕ := (stints.map (·.lapsInStint)).sum

def lapMismatchWarning (totalStintLaps raceLaps : ℕ) : String :=
  "Total stint laps (" ++ Nat.repr totalStintLaps ++ ") does not match race laps (" ++
    Nat.repr raceLaps ++ "). This may affect simulation accuracy."

def wetTiresWarning : String :=
  "Wet weather conditions but no wet or intermediate tires selected. Consider tire choice."

def finalize (dslText : String) (st : PState) : DSLParseResult :=
  let warnings :=
    match st.raceConfig, st.strategy with
    | some rc, some sg =>
      (if sumStintLaps sg.stints ≠ rc.totalLaps then
        [lapMismatchWarning (sumStintLaps sg.stints) rc.totalLaps]
      else []) ++
      (if rc.weather = .wet ∧
          ¬ (sg.stints.any fun s => s.tireCompound = .INTERMEDIATE || s.tireCompound = .WET) then
        [wetTiresWarning]
      else [])
    | _, _ => []
  let errors := st.errors ++
    (match st.raceConfig, st.carProfile with
     | some rc, some cp =>
       if cp.startingGridPosition > rc.fieldSize then
         [⟨st.lineIndex + 1,
           "Starting position P" ++ Nat.repr cp.startingGridPosition ++
             " exceeds field size of " ++ Nat.repr rc.fieldSize, some "CAR"⟩]
       else []
     | _, _ => [])
  if 0 < errors.length then
    { success := false, data := none, errors := errors, warnings := warnings, rawDSL := dslText }
  else
    match st.raceConfig, st.carProfile, st.trackAero, st.trackOvertaking, st.trackChance,
      st.strategy with
    | some rc, some cp, some aero, some ovk, some chance, some sg =>
      { success := true,
        data := some { raceConfig := rc, carProfile := cp,
                       trackProfile := { aeroClassification := aero, overtakingDifficulty := ovk,
                                         overtakingChance := chance,
                                         criticalTurns := st.criticalTurns,
                                         previousWinnerStrategy := st.previousWinner },
                       strategy := sg },
        errors := [], warnings := warnings, rawDSL := dslText }
    | _, _, _, _, _, _ =>
      { success := false, data := none,
        errors := errors ++ [⟨st.lineIndex + 1, "Missing required sections in DSL", none⟩],
        warnings := warnings, rawDSL := dslText }

/-- The DSL parser.  The TS body is wrapped in a `try`/`catch`, but no
statement in it can throw; the embedding is total by construction and the
catch branch is dead code. -/
def parseStrategyDSL (dslText : String) : DSLParseResult :=
  let lines := (splitLines dslText.data).map trimRightCl
  let st0 : PState := ⟨0, [], none, none, none, none, none, none, [], none⟩
  let st := parsePreviousWinnerSec lines (parseCriticalTurnsSec lines
    (parseStrategySec lines (parseTrackSec lines (parseCarSec lines (parseRaceSec lines st0)))))
  finalize dslText st

-- ===========================================================================
-- Simulation engine (src/lib/simulate/simulateRace.ts)
-- ===========================================================================

def Q.neg (a : Q) : Q := ⟨-a.num, a.den, a.dpos⟩

instance : Neg Q := ⟨Q.neg⟩

structure TrackData where
  baseLapTime : Q
  pitLaneTimeLoss : Q
  fuelEffectPerKg : Q
  startingFuelKg : Q
  fuelConsumptionPerLap : Q

def DEFAULT_TRACK_DATA : TrackData :=
  { baseLapTime := 85, pitLaneTimeLoss := 22, fuelEffectPerKg := 0.035,
    startingFuelKg := 110, fuelConsumptionPerLap := 1.8 }

/-- `TRACK_DATABASE`: every override in the source sets exactly the
`baseLapTime` and `pitLaneTimeLoss` fields, so the `Partial<TrackData>`
entries are embedded as pairs (baseLapTime, pitLaneTimeLoss). -/
def TRACK_DATABASE : List (String × Q × Q) :=
  [("MONZA", 82, 24), ("MONACO", 73, 18), ("SPA", 105, 21), ("SILVERSTONE", 88, 20),
   ("SUZUKA", 91, 22), ("BAHRAIN", 90, 21), ("JEDDAH", 88, 23), ("MELBOURNE", 79, 24),
   ("IMOLA", 76, 25), ("MIAMI", 89, 22), ("BARCELONA", 78, 21), ("MONTREAL", 73, 23),
   ("AUSTRIA", 65, 20), ("BUDAPEST", 77, 21), ("ZANDVOORT", 72, 18), ("SINGAPORE", 94, 26),
   ("AUSTIN", 96, 22), ("MEXICO", 78, 20), ("INTERLAGOS", 72, 22), ("VEGAS", 93, 23),
   ("QATAR", 84, 21), ("ABU_DHABI", 85, 20)]

def getTrackData (trackName : String) : TrackData :=
  let normalized := String.mk ((toUpperCl trackName.data).filter fun c => 'A' ≤ c && c ≤ 'Z')
  match (TRACK_DATABASE.find? fun p => p.1 = normalized).map (·.2) with
  | some (base, pit) => { DEFAULT_TRACK_DATA with baseLapTime := base, pitLaneTimeLoss := pit }
  | none => DEFAULT_TRACK_DATA

/-- `cliffLap` is embedded as a natural number: it is only compared with and
subtracted from (natural) lap counts, and cast where it enters lap-time
arithmetic. -/
structure TireDegradationProfile where
  initialGrip : Q
  degradationRate : Q
  cliffLap : ℕ
  cliffMultiplier : Q

def TIRE_PROFILES : TireCompound → TireDegradationProfile
  | .SOFT => { initialGrip := 1.0, degradationRate := 0.08, cliffLap := 15, cliffMultiplier := 2.5 }
  | .MEDIUM => { initialGrip := 0.97, degradationRate := 0.05, cliffLap := 25, cliffMultiplier := 2.0 }
  | .HARD => { initialGrip := 0.94, degradationRate := 0.03, cliffLap := 40, cliffMultiplier := 1.8 }
  | .INTERMEDIATE => { initialGrip := 0.95, degradationRate := 0.04, cliffLap := 30, cliffMultiplier := 2.0 }
  | .WET => { initialGrip := 0.92, degradationRate := 0.035, cliffLap := 35, cliffMultiplier := 1.5 }

/-- The `|| 1.0` fallback at the use site is unreachable: the record has an
entry for each of the four weather values. -/
def WEATHER_DEGRADATION_MULTIPLIER : Weather → Q
  | .cool => 0.85
  | .normal => 1.0
  | .hot => 1.25
  | .wet => 1.1

/-- Realistic ceiling/floor/typical finish are positions, embedded as natural
numbers. -/
structure PaceClassEffect where
  lapTimeDelta : Q
  overtakingAbility : Q
  defenseAbility : Q
  realisticCeiling : ℕ
  realisticFloor : ℕ
  typicalFinish : ℕ

def PACE_CLASS_EFFECTS : PaceClass → PaceClassEffect
  | .front_runner =>
    { lapTimeDelta := -1.5, overtakingAbility := 1.4, defenseAbility := 1.5,
      realisticCeiling := 1, realisticFloor := 6, typicalFinish := 3 }
  | .midfield =>
    { lapTimeDelta := 0, overtakingAbility := 1.0, defenseAbility := 1.0,
      realisticCeiling := 5, realisticFloor := 14, typicalFinish := 9 }
  | .backmarker =>
    { lapTimeDelta := 1.2, overtakingAbility := 0.6, defenseAbility := 0.7,
      realisticCeiling := 10, realisticFloor := 20, typicalFinish := 16 }

structure RiskProfileEffect where
  overtakingAggressiveness : Q
  tireManagement : Q
  pitStopEfficiency : Q

def RISK_PROFILE_EFFECTS : RiskProfile → RiskProfileEffect
  | .conservative =>
    { overtakingAggressiveness := 0.7, tireManagement := 0.85, pitStopEfficiency := 0.98 }
  | .balanced =>
    { overtakingAggressiveness := 1.0, tireManagement := 1.0, pitStopEfficiency := 1.0 }
  | .aggressive =>
    { overtakingAggressiveness := 1.4, tireManagement := 1.2, pitStopEfficiency := 1.05 }

def calculateTireDegradation (compound : TireCompound) (lapInStint : ℕ) (weather : Weather)
    (riskProfile : RiskProfile) : Q :=
  let profile := TIRE_PROFILES compound
  let weatherMultiplier := WEATHER_DEGRADATION_MULTIPLIER weather
  let riskEffect := (RISK_PROFILE_EFFECTS riskProfile).tireManagement
  let degradation := profile.degradationRate * weatherMultiplier * riskEffect
  let degradation :=
    if profile.cliffLap < lapInStint then
      degradation + (profile.degradationRate * profile.cliffMultiplier - profile.degradationRate) *
        Q.ofNat (min (lapInStint - profile.cliffLap) 10) / 10
    else degradation
  degradation * Q.ofNat lapInStint

def calculateTireWear (lapInStint : ℕ) (compound : TireCompound) : Q :=
  let profile := TIRE_PROFILES compound
  let baseWear := Q.ofNat lapInStint / (Q.ofNat profile.cliffLap * 1.5)
  if profile.cliffLap < lapInStint then
    let extraWear := Q.ofNat (lapInStint - profile.cliffLap) / Q.ofNat profile.cliffLap * 0.5
    min (baseWear + extraWear) 1.0
  else
    min baseWear 1.0

structure OvertakeResult where
  newPosition : ℕ
  overtook : Bool
  wasOvertaken : Bool

/-- The per-lap overtaking model.  Positions are natural numbers; the JS
real-valued `currentPosition - gain` is immediately clamped from below by
`Math.max` with the (positive) realistic ceiling, so truncated natural
subtraction agrees with it.  The `|| 0.025` fallback on the difficulty table
is unreachable for the closed enum. -/
def simulateOvertaking (currentPosition : ℕ) (trackProfile : TrackProfile)
    (paceClass : PaceClass) (riskProfile : RiskProfile) (lapNumber : ℕ) (isFirstLap : Bool)
    (fieldSize : ℕ) : OvertakeResult :=
  let paceEffect := PACE_CLASS_EFFECTS paceClass
  let riskEffect := RISK_PROFILE_EFFECTS riskProfile
  let atOrBeyondCeiling := currentPosition ≤ paceEffect.realisticCeiling
  let trackDifficultyMultiplier : Q :=
    match trackProfile.overtakingDifficulty with
    | .easy => 0.04
    | .medium => 0.025
    | .hard => 0.012
  if isFirstLap then
    let firstLapSeed : Q := Q.ofNat ((currentPosition * 47 + 13) % 100) / 100
    let potentialGain : ℕ := if 10 < currentPosition then 3 else if 5 < currentPosition then 2 else 1
    let potentialLoss : ℕ := if currentPosition < 5 then 2 else 1
    let gainThreshold :=
      (0.3 : Q) * paceEffect.overtakingAbility * riskEffect.overtakingAggressiveness
    let lossThreshold := (0.15 : Q) / paceEffect.defenseAbility
    if firstLapSeed < gainThreshold ∧ ¬ atOrBeyondCeiling then
      let gain : ℕ := min potentialGain
        ((Q.floor (firstLapSeed / gainThreshold * Q.ofNat potentialGain)).toNat + 1)
      let newPosition := max paceEffect.realisticCeiling (currentPosition - gain)
      { newPosition := newPosition, overtook := newPosition < currentPosition,
        wasOvertaken := false }
    else if (1 : Q) - lossThreshold < firstLapSeed then
      let loss := min potentialLoss 1
      let newPosition := min fieldSize (currentPosition + loss)
      { newPosition := newPosition, overtook := false,
        wasOvertaken := currentPosition < newPosition }
    else
      { newPosition := currentPosition, overtook := false, wasOvertaken := false }
  else
    let seed : Q := Q.ofNat ((lapNumber * 17 + currentPosition * 31) % 100) / 100
    let overtakeProb := trackDifficultyMultiplier * paceEffect.overtakingAbility *
      riskEffect.overtakingAggressiveness
    let overtakeProb :=
      if currentPosition ≤ paceEffect.realisticCeiling + 2 then overtakeProb * 0.1
      else if currentPosition ≤ paceEffect.realisticCeiling + 4 then overtakeProb * 0.4
      else overtakeProb
    let overtakeProb :=
      if paceEffect.typicalFinish < currentPosition then overtakeProb * 1.3 else overtakeProb
    let overtakenProb := trackDifficultyMultiplier * 0.5 / paceEffect.defenseAbility
    -- `typicalFinish - 2` is natural subtraction; all typical finishes are ≥ 3,
    -- so it agrees with the JS real-valued subtraction.
    let overtakenProb :=
      if currentPosition < paceEffect.typicalFinish - 2 then overtakenProb * 1.5 else overtakenProb
    let overtakenProb :=
      if paceEffect.realisticFloor ≤ currentPosition then overtakenProb * 0.3 else overtakenProb
    if seed < overtakeProb ∧ 1 < currentPosition ∧ ¬ atOrBeyondCeiling then
      let newPosition := max paceEffect.realisticCeiling (currentPosition - 1)
      { newPosition := newPosition, overtook := newPosition < currentPosition,
        wasOvertaken := false }
    else if (1 : Q) - overtakenProb < seed ∧ currentPosition < fieldSize then
      let newPosition := min paceEffect.realisticFloor (currentPosition + 1)
      { newPosition := newPosition, overtook := false,
        wasOvertaken := currentPosition < newPosition }
    else
      { newPosition := currentPosition, overtook := false, wasOvertaken := false }

inductive LapEvent | pit_stop | overtake | overtaken | start
deriving DecidableEq

structure LapData where
  lapNumber : ℕ
  stintNumber : ℕ
  tireCompound : TireCompound
  lapTime : Q
  tireWear : Q
  fuelLoad : Q
  trafficPenalty : Q
  position : ℕ
  event : Option LapEvent
  eventDetail : Option String

structure StintMetrics where
  stintNumber : ℕ
  tireCompound : TireCompound
  totalLaps : ℕ
  avgLapTime : Q
  bestLapTime : Q
  worstLapTime : Q
  totalDegradationLoss : Q
  pitTimeLoss : Q
  startPosition : ℕ
  endPosition : ℕ

inductive WarningType | tire | strategy | traffic | track | weather
deriving DecidableEq

inductive Severity | low | medium | high | critical
deriving DecidableEq

structure SimulationWarning where
  type : WarningType
  severity : Severity
  message : String
  detail : Option String

structure RaceProfileSummary where
  overtakingChanceSummary : String
  aeroClassification : AeroClassification
  aeroDescription : String
  previousWinnerSummary : Option String
  criticalTurnsSummary : List String

structure PositionRange where
  min : ℕ
  max : ℕ
deriving DecidableEq

structure SimulationResult where
  totalRaceTime : Q
  predictedFinishPosition : ℕ
  predictedPositionRange : PositionRange
  positionsGained : ℤ
  probabilityOfPoints : Q
  probabilityOfBeatingStartPosition : Q
  stintMetrics : List StintMetrics
  lapData : List LapData
  warnings : List SimulationWarning
  raceProfile : RaceProfileSummary
  strategyLabel : String
  totalPitStops : ℕ
  totalPitTimeLoss : Q
  raceConfig : RaceConfig
  carProfile : CarProfile
  strategy : Strategy

def tireName : TireCompound → String
  | .SOFT => "SOFT"
  | .MEDIUM => "MEDIUM"
  | .HARD => "HARD"
  | .INTERMEDIATE => "INTERMEDIATE"
  | .WET => "WET"

def paceName : PaceClass → String
  | .front_runner => "front_runner"
  | .midfield => "midfield"
  | .backmarker => "backmarker"

/-- The transient, function-scoped race state of `simulateRace`. -/
structure RaceState where
  currentPosition : ℕ
  totalRaceTime : Q
  currentLap : ℕ
  fuelLoad : Q
  totalPitTimeLoss : Q

/-- One iteration of the inner lap loop of `simulateRace`.  Returns the
recorded lap and the updated race state (whose `totalRaceTime` and
`totalPitTimeLoss` already include this lap and any pit loss). -/
def lapStep (race : RaceConfig) (car : CarProfile) (strategy : Strategy)
    (trackProfile : TrackProfile) (trackData : TrackData) (stint : Stint) (stintIdx : ℕ)
    (isLastStint : Bool) (lapInStint : ℕ) (st : RaceState) : LapData × RaceState :=
  let paceEffect := PACE_CLASS_EFFECTS car.paceClass
  let riskEffect := RISK_PROFILE_EFFECTS car.riskProfile
  let currentLap := st.currentLap + 1
  let isFirstLap := currentLap = 1
  let isPitLap := lapInStint = stint.lapsInStint ∧ ¬ isLastStint = true
  let lapTime := trackData.baseLapTime + paceEffect.lapTimeDelta
  let degradation := calculateTireDegradation stint.tireCompound lapInStint race.weather
    car.riskProfile
  let lapTime := lapTime + degradation
  -- (the source's `const fuelEffect = fuelLoad * fuelEffectPerKg` is unused)
  let lapTime := lapTime -
    (trackData.startingFuelKg - st.fuelLoad) * trackData.fuelEffectPerKg * 0.5
  let fuelLoad := max (0 : Q) (st.fuelLoad - trackData.fuelConsumptionPerLap)
  let lapTime :=
    if lapInStint ≤ 3 then
      lapTime + ((1 : Q) - (TIRE_PROFILES stint.tireCompound).initialGrip) * 2
    else lapTime
  let event0 : Option LapEvent := if isFirstLap then some .start else none
  let detail0 : Option String :=
    if isFirstLap then some ("Started P" ++ Nat.repr car.startingGridPosition) else none
  let otr := simulateOvertaking st.currentPosition trackProfile car.paceClass car.riskProfile
    currentLap isFirstLap race.fieldSize
  let evd :=
    if otr.overtook then
      (some LapEvent.overtake, some ("Passed car to move to P" ++ Nat.repr otr.newPosition),
       (0 : Q))
    else if otr.wasOvertaken then
      (some LapEvent.overtaken, some ("Lost position, now P" ++ Nat.repr otr.newPosition),
       (0.3 : Q))
    else (event0, detail0, (0 : Q))
  let event1 := evd.1
  let detail1 := evd.2.1
  let trafficPenalty := evd.2.2
  let currentPosition := otr.newPosition
  let lapTime :=
    if 1 < currentPosition ∧ trackProfile.aeroClassification = .drag_reliant then
      lapTime - 0.2
    else lapTime
  let trafficPenalty :=
    if 8 ≤ currentPosition ∧ currentPosition ≤ 15 then
      trafficPenalty + (0.1 : Q) * ((1 : Q) - trackProfile.overtakingChance)
    else trafficPenalty
  let lapTime := lapTime + trafficPenalty
  let ped :=
    if isPitLap then
      -- `strategy.stints[stintIdx + 1]` in the source; a pit lap only occurs on
      -- a non-final stint, so the lookup cannot miss.
      ((trackData.pitLaneTimeLoss * riskEffect.pitStopEfficiency), some LapEvent.pit_stop,
       some ("Pit stop for " ++
         (match strategy.stints.get? (stintIdx + 1) with
          | some next => tireName next.tireCompound
          | none => "") ++ " tires"))
    else ((0 : Q), event1, detail1)
  let pitTimeLoss := ped.1
  let event2 := ped.2.1
  let detail2 := ped.2.2
  let tireWear := calculateTireWear lapInStint stint.tireCompound
  let lapRecord : LapData :=
    { lapNumber := currentLap, stintNumber := stint.stintNumber,
      tireCompound := stint.tireCompound, lapTime := lapTime, tireWear := tireWear,
      fuelLoad := fuelLoad, trafficPenalty := trafficPenalty, position := currentPosition,
      event := event2, eventDetail := detail2 }
  (lapRecord,
   { currentPosition := currentPosition,
     totalRaceTime := st.totalRaceTime + lapTime + pitTimeLoss,
     currentLap := currentLap, fuelLoad := fuelLoad,
     totalPitTimeLoss := st.totalPitTimeLoss + pitTimeLoss })

/-- The inner `for (lapInStint = 1; lapInStint <= stint.lapsInStint; ...)` loop:
`runLaps ... k r st` runs `r` laps starting at lap-in-stint `k`. -/
def runLaps (race : RaceConfig) (car : CarProfile) (strategy : Strategy)
    (trackProfile : TrackProfile) (trackData : TrackData) (stint : Stint) (stintIdx : ℕ)
    (isLastStint : Bool) : ℕ → ℕ → RaceState → List LapData × RaceState
  | _, 0, st => ([], st)
  | lapInStint, r + 1, st =>
    let p := lapStep race car strategy trackProfile trackData stint stintIdx isLastStint
      lapInStint st
    let rest := runLaps race car strategy trackProfile trackData stint stintIdx isLastStint
      (lapInStint + 1) r p.2
    (p.1 :: rest.1, rest.2)

def sumQ (l : List Q) : Q := l.foldl (· + ·) 0

/-- `Math.min(...list)`; the empty case (`Infinity` in JS) is modelled as 0 and
is unreachable for the stint lists the claims quantify over. -/
def foldMinQ : List Q → Q
  | [] => 0
  | h :: t => t.foldl (fun a b => min a b) h

def foldMaxQ : List Q → Q
  | [] => 0
  | h :: t => t.foldl (fun a b => max a b) h

/-- The pre-lap-loop tire/weather warnings of one stint. -/
def stintWarnings (race : RaceConfig) (stint : Stint) : List SimulationWarning :=
  (if (Q.ofNat (TIRE_PROFILES stint.tireCompound).cliffLap) * 1.3 < Q.ofNat stint.lapsInStint then
    [{ type := .tire, severity := .high,
       message := "Stint " ++ Nat.repr stint.stintNumber ++ " may push " ++
         tireName stint.tireCompound ++ " tires past cliff",
       detail := some ("Running " ++ Nat.repr stint.lapsInStint ++ " laps on " ++
         tireName stint.tireCompound ++ " compound which has cliff at lap " ++
         Nat.repr (TIRE_PROFILES stint.tireCompound).cliffLap) }]
  else []) ++
  (if race.weather = .wet ∧
      ¬ (stint.tireCompound = .INTERMEDIATE ∨ stint.tireCompound = .WET) then
    [{ type := .weather, severity := .critical,
       message := "Stint " ++ Nat.repr stint.stintNumber ++ " uses dry tires in wet conditions",
       detail := some "Consider using INTERMEDIATE or WET tires for wet weather" }]
  else [])

/-- The outer stint loop.  `isLastStint` (`stintIdx === stints.length - 1` in
the source) is recovered as emptiness of the remaining stint list; the loop is
always entered with `stintIdx = 0` and the full `strategy.stints`. -/
def runStints (race : RaceConfig) (car : CarProfile) (strategy : Strategy)
    (trackProfile : TrackProfile) (trackData : TrackData) :
    ℕ → List Stint → RaceState →
      List LapData × List StintMetrics × List SimulationWarning × RaceState
  | _, [], st => ([], [], [], st)
  | stintIdx, stint :: rest, st =>
    let isLastStint := rest.isEmpty
    let ws := stintWarnings race stint
    let lp := runLaps race car strategy trackProfile trackData stint stintIdx isLastStint
      1 stint.lapsInStint st
    let recs := lp.1
    let st' := lp.2
    let stintLapTimes := recs.map (·.lapTime)
    -- `avgLapTime` on an empty stint divides 0 by 0 (NaN in JS, 0 here);
    -- unreachable for the documents the claims quantify over.
    let metrics : StintMetrics :=
      { stintNumber := stint.stintNumber, tireCompound := stint.tireCompound,
        totalLaps := stint.lapsInStint,
        avgLapTime := sumQ stintLapTimes / Q.ofNat stintLapTimes.length,
        bestLapTime := foldMinQ stintLapTimes, worstLapTime := foldMaxQ stintLapTimes,
        totalDegradationLoss := sumQ ((List.range stint.lapsInStint).map fun m =>
          calculateTireDegradation stint.tireCompound (m + 1) race.weather car.riskProfile),
        pitTimeLoss :=
          if isLastStint then 0
          else trackData.pitLaneTimeLoss * (RISK_PROFILE_EFFECTS car.riskProfile).pitStopEfficiency,
        startPosition := st.currentPosition, endPosition := st'.currentPosition }
    let tail := runStints race car strategy trackProfile trackData (stintIdx + 1) rest st'
    (recs ++ tail.1, metrics :: tail.2.1, ws ++ tail.2.2.1, tail.2.2.2)

def joinSep (sep : String) : List String → String
  | [] => ""
  | h :: t => t.foldl (fun a s => a ++ sep ++ s) h

def generateRaceProfileSummary (trackProfile : TrackProfile) (_race : RaceConfig) :
    RaceProfileSummary :=
  let overtakingSummary :=
    if trackProfile.overtakingDifficulty = .easy then
      "Easy overtaking (expect 2-4 on-track passes possible) - undercuts and strategy can pay off"
    else if trackProfile.overtakingDifficulty = .medium then
      "Moderate overtaking (expect 1-2 on-track passes possible) - track position matters but strategy helps"
    else
      "Hard overtaking (0-1 on-track passes likely) - track position is critical, avoid losing places in pits"
  let aeroDescription :=
    match trackProfile.aeroClassification with
    | .downforce_reliant => "High downforce track - focus on mechanical grip and corner speed"
    | .drag_reliant => "Low downforce track - top speed and DRS zones are crucial"
    | .balanced => "Balanced aerodynamic requirements - versatile setup options"
  let previousWinnerSummary :=
    trackProfile.previousWinnerStrategy.map fun pw =>
      let stintSummary := joinSep " → " (pw.stints.map fun s =>
        tireName s.tireCompound ++ "(" ++ Nat.repr s.laps ++ ")")
      Nat.repr pw.year ++ ": " ++ pw.label ++ " - " ++ stintSummary
  let criticalTurnsSummary := trackProfile.criticalTurns.map fun t =>
    "Turn " ++ Nat.repr t.turnNumber ++ " (" ++ t.name ++ "): " ++ t.note
  { overtakingChanceSummary := overtakingSummary,
    aeroClassification := trackProfile.aeroClassification,
    aeroDescription := aeroDescription,
    previousWinnerSummary := previousWinnerSummary,
    criticalTurnsSummary := criticalTurnsSummary }

/-- The "COMPREHENSIVE WARNING GENERATION" block at the end of `simulateRace`,
in source push order.  None of the rules reads the simulated positions. -/
def ruleWarnings (race : RaceConfig) (car : CarProfile) (strategy : Strategy)
    (trackProfile : TrackProfile) : List SimulationWarning :=
  let paceEffectFinal := PACE_CLASS_EFFECTS car.paceClass
  -- Risk profile warnings
  (if car.riskProfile = .aggressive then
    [{ type := .strategy, severity := .medium,
       message := "Aggressive risk profile increases tire wear by 20%",
       detail := some "Higher degradation rate may require earlier pit stops or compromise late-stint pace" }] ++
    (if trackProfile.overtakingDifficulty = .hard then
      [{ type := .strategy, severity := .high,
         message := "Aggressive driving on low-overtaking track is risky",
         detail := some "If you lose position due to tire wear, recovery will be very difficult" }]
    else []) ++
    (if strategy.stints.any fun s => s.tireCompound = .SOFT && 12 < s.lapsInStint then
      [{ type := .tire, severity := .high,
         message := "Aggressive driving will shorten soft tire life significantly",
         detail := some "Soft tires may cliff early with aggressive driving style - consider shorter stint" }]
    else [])
  else []) ++
  (if car.riskProfile = .conservative then
    [{ type := .strategy, severity := .low,
       message := "Conservative approach protects tires but limits overtaking",
       detail := some "Better tire life but 30% fewer overtaking attempts - good for track position races" }]
  else []) ++
  -- Pace class vs starting position warnings
  (if car.startingGridPosition < paceEffectFinal.realisticCeiling then
    [{ type := .strategy, severity := .high,
       message := "Starting P" ++ Nat.repr car.startingGridPosition ++ " is ahead of " ++
         paceName car.paceClass ++ " pace ceiling (P" ++
         Nat.repr paceEffectFinal.realisticCeiling ++ ")",
       detail := some "Expect to lose positions to faster cars during the race - focus on defensive strategy" }]
  else []) ++
  (if paceEffectFinal.typicalFinish + 3 < car.startingGridPosition then
    [{ type := .strategy, severity := .medium,
       message := "Starting P" ++ Nat.repr car.startingGridPosition ++ " is below typical " ++
         paceName car.paceClass ++ " finish (P" ++ Nat.repr paceEffectFinal.typicalFinish ++ ")",
       detail := some "Room to gain positions if strategy and first lap execution go well" }]
  else []) ++
  -- Target position warnings (`car.targetMinPosition &&` is JS truthiness:
  -- a target of 0 is falsy and produces no warning)
  (match car.targetMinPosition with
   | some t =>
     if t ≠ 0 ∧ t < paceEffectFinal.realisticCeiling then
       [{ type := .strategy, severity := .critical,
          message := "Target P" ++ Nat.repr t ++ " is unrealistic for " ++
            paceName car.paceClass ++ " car",
          detail := some ("Best realistic finish for " ++ paceName car.paceClass ++ " is P" ++
            Nat.repr paceEffectFinal.realisticCeiling ++ " - adjust expectations") }]
     else []
   | none => []) ++
  -- Weather & tire compound warnings
  (if race.weather = .hot then
    [{ type := .weather, severity := .medium,
       message := "Hot conditions increase tire degradation by 25%",
       detail := some "Consider harder compounds or shorter stints to manage thermal degradation" }] ++
    (if strategy.stints.any fun s => s.tireCompound = .SOFT && 10 < s.lapsInStint then
      [{ type := .tire, severity := .high,
         message := "Soft tires in hot conditions will degrade rapidly",
         detail := some "Expect significant pace drop-off after ~10 laps on softs in the heat" }]
    else [])
  else []) ++
  (if race.weather = .cool then
    (match strategy.stints.head? with
     | some s0 =>
       if s0.tireCompound = .HARD then
         [{ type := .tire, severity := .medium,
            message := "Hard tires may struggle to warm up in cool conditions",
            detail := some "First few laps could have reduced grip - vulnerable on lap 1" }]
       else []
     | none => [])
  else []) ++
  (if race.weather = .wet then
    [{ type := .weather, severity := .medium,
       message := "Wet conditions - reduced grip and visibility",
       detail := some "INTERMEDIATE or WET tires required. Watch for drying track creating crossover window." }]
  else []) ++
  -- Stint length warnings
  (strategy.stints.flatMap fun stint =>
    (if stint.lapsInStint < 8 ∧ 1 < stint.stintNumber then
      [{ type := .strategy, severity := .medium,
         message := "Stint " ++ Nat.repr stint.stintNumber ++ " is very short (" ++
           Nat.repr stint.lapsInStint ++ " laps)",
         detail := some "Short stints waste pit stop time - ensure this is intentional (e.g., safety car)" }]
    else []) ++
    (if (TIRE_PROFILES stint.tireCompound).cliffLap < stint.lapsInStint ∧
        Q.ofNat stint.lapsInStint ≤ Q.ofNat (TIRE_PROFILES stint.tireCompound).cliffLap * 1.3 then
      [{ type := .tire, severity := .medium,
         message := "Stint " ++ Nat.repr stint.stintNumber ++ " pushes " ++
           tireName stint.tireCompound ++ " tires near cliff (" ++
           Nat.repr stint.lapsInStint ++ "/" ++
           Nat.repr (TIRE_PROFILES stint.tireCompound).cliffLap ++ " laps)",
         detail := some "Pace will drop significantly in final laps - be prepared for pressure from behind" }]
    else [])) ++
  -- First stint specific warnings
  (match strategy.stints.head? with
   | some firstStint =>
     (if firstStint.tireCompound = .SOFT ∧ 10 < car.startingGridPosition then
       [{ type := .strategy, severity := .medium,
          message := "Starting on soft tires from back of grid",
          detail := some "Soft tires optimal for qualifying but may limit strategic flexibility - offset pit window from rivals" }]
     else []) ++
     (if firstStint.tireCompound = .HARD ∧ car.startingGridPosition ≤ 5 then
       [{ type := .strategy, severity := .medium,
          message := "Starting on hard tires from front positions",
          detail := some "May lose positions early to cars on grippier compounds - requires track position defense" }]
     else [])
   | none => []) ++
  -- Last stint warnings
  (match strategy.stints.getLast? with
   | some lastStint =>
     if lastStint.tireCompound = .SOFT ∧ 18 < lastStint.lapsInStint then
       [{ type := .tire, severity := .high,
          message := "Long final stint on soft tires",
          detail := some "Risk of severe degradation in closing laps when positions are hardest to recover" }]
     else []
   | none => []) ++
  -- Track-specific warnings
  (trackProfile.criticalTurns.flatMap fun turn =>
    (if turn.riskTags.contains "tire_stress" ∧ (strategy.stints.any fun s => 25 < s.lapsInStint) then
      [{ type := .track, severity := .medium,
         message := turn.name ++ " (Turn " ++ Nat.repr turn.turnNumber ++
           ") may stress tires on longer stints",
         detail := some turn.note }]
    else []) ++
    (if turn.riskTags.contains "overtaking_zone" ∧ trackProfile.overtakingDifficulty = .hard then
      [{ type := .track, severity := .low,
         message := turn.name ++ " is one of few overtaking opportunities",
         detail := some (turn.note ++ " - Focus defensive efforts here") }]
    else [])) ++
  -- General strategy warnings
  (if strategy.stints.length = 1 ∧ 40 < race.totalLaps then
    [{ type := .strategy, severity := .high,
       message := "Zero-stop strategy on long race is extremely risky",
       detail := some "No compound can realistically last this distance competitively" }]
  else []) ++
  (if 3 ≤ strategy.stints.length ∧ trackProfile.overtakingDifficulty = .hard then
    [{ type := .strategy, severity := .high,
       message := "Multiple pit stops on low-overtaking track",
       detail := some "Each stop risks losing positions that are nearly impossible to recover" }]
  else []) ++
  (if 3 ≤ strategy.stints.length ∧ trackProfile.overtakingDifficulty = .medium then
    [{ type := .strategy, severity := .medium,
       message := "Three or more stops increases track position risk",
       detail := some "Consider if fresh tire advantage outweighs time lost in pits" }]
  else []) ++
  -- Backmarker specific warnings
  (if car.paceClass = .backmarker ∧ car.riskProfile = .aggressive then
    [{ type := .strategy, severity := .medium,
       message := "Aggressive strategy unlikely to overcome pace deficit",
       detail := some "Backmarker cars benefit more from conservative tire management and capitalizing on others' mistakes" }]
  else []) ++
  -- Undercut/overcut opportunity note
  (if trackProfile.overtakingDifficulty ≠ .easy ∧ 2 ≤ strategy.stints.length then
    [{ type := .strategy, severity := .low,
       message := "Pit timing critical for position gains",
       detail := some "Undercut can gain 1-2 positions if pitting 1-2 laps before rivals on this track" }]
  else []) ++
  -- Traffic warning
  (if 8 ≤ car.startingGridPosition ∧ car.startingGridPosition ≤ 15 then
    [{ type := .traffic, severity := .low,
       message := "Starting in congested midfield",
       detail := some "Expect close racing and potential for minor contact - lap 1 positioning is crucial" }]
  else [])

/-- The race simulation engine. -/
def simulateRace (race : RaceConfig) (car : CarProfile) (strategy : Strategy)
    (trackProfile : TrackProfile) : SimulationResult :=
  let trackData := getTrackData race.trackName
  let st0 : RaceState :=
    { currentPosition := car.startingGridPosition, totalRaceTime := 0, currentLap := 0,
      fuelLoad := trackData.startingFuelKg, totalPitTimeLoss := 0 }
  let loop := runStints race car strategy trackProfile trackData 0 strategy.stints st0
  let lapData := loop.1
  let stintMetrics := loop.2.1
  let loopWarnings := loop.2.2.1
  let stF := loop.2.2.2
  let paceEffectFinal := PACE_CLASS_EFFECTS car.paceClass
  let predictedFinishPosition := max paceEffectFinal.realisticCeiling stF.currentPosition
  let predictedFinishPosition := min paceEffectFinal.realisticFloor predictedFinishPosition
  let positionsGained : ℤ := (car.startingGridPosition : ℤ) - (predictedFinishPosition : ℤ)
  let variance : ℕ :=
    if car.riskProfile = .aggressive then 2 else if car.riskProfile = .conservative then 1 else 1
  -- `predictedFinishPosition - variance` is natural subtraction; the result is
  -- clamped from below by the positive ceiling, so truncation at 0 agrees with
  -- the JS real-valued subtraction.
  let positionRange : PositionRange :=
    { min := max paceEffectFinal.realisticCeiling (predictedFinishPosition - variance),
      max := min (min race.fieldSize paceEffectFinal.realisticFloor)
        (predictedFinishPosition + variance + 1) }
  let probabilityOfPoints : Q :=
    if 10 < paceEffectFinal.realisticCeiling then
      max (0.02 : Q) ((0.15 : Q) - (Q.ofNat predictedFinishPosition - 10) * 0.01)
    else if predictedFinishPosition ≤ 10 then
      min (0.85 : Q) ((0.9 : Q) -
        (Q.ofNat predictedFinishPosition - Q.ofNat paceEffectFinal.realisticCeiling) * 0.05)
    else
      max (0.05 : Q) ((0.35 : Q) - (Q.ofNat predictedFinishPosition - 10) * 0.03)
  let probabilityOfBeatingStartPosition : Q :=
    if paceEffectFinal.typicalFinish < car.startingGridPosition then
      min (0.75 : Q) ((0.5 : Q) +
        (Q.ofNat car.startingGridPosition - Q.ofNat paceEffectFinal.typicalFinish) * 0.08)
    else if car.startingGridPosition < paceEffectFinal.realisticCeiling then
      max (0.1 : Q) ((0.3 : Q) -
        (Q.ofNat paceEffectFinal.realisticCeiling - Q.ofNat car.startingGridPosition) * 0.1)
    else if 0 ≤ positionsGained then
      min (0.65 : Q) ((0.45 : Q) + Q.ofInt positionsGained * 0.05)
    else
      max (0.2 : Q) ((0.45 : Q) + Q.ofInt positionsGained * 0.1)
  let raceProfile := generateRaceProfileSummary trackProfile race
  { totalRaceTime := stF.totalRaceTime,
    predictedFinishPosition := predictedFinishPosition,
    predictedPositionRange := positionRange,
    positionsGained := positionsGained,
    probabilityOfPoints := probabilityOfPoints,
    probabilityOfBeatingStartPosition := probabilityOfBeatingStartPosition,
    stintMetrics := stintMetrics, lapData := lapData,
    warnings := loopWarnings ++ ruleWarnings race car strategy trackProfile,
    raceProfile := raceProfile, strategyLabel := strategy.label,
    totalPitStops := strategy.stints.length - 1, totalPitTimeLoss := stF.totalPitTimeLoss,
    raceConfig := race, carProfile := car, strategy := strategy }

-- ===========================================================================
-- Auxiliary definitions used by the verification statements
-- ===========================================================================

/-- The tire-wear formula as a function of the cliff lap, for reuse across
compounds; `calculateTireWear k c` is definitionally
`wearExpr (TIRE_PROFILES c).cliffLap k`. -/
def wearExpr (cliff k : ℕ) : Q :=
  let baseWear := Q.ofNat k / (Q.ofNat cliff * 1.5)
  if cliff < k then
    min (baseWear + Q.ofNat (k - cliff) / Q.ofNat cliff * 0.5) 1.0
  else
    min baseWear 1.0

/-- `wearExpr` transported to `ℚ`. -/
def wearRat (cliff k : ℕ) : ℚ :=
  if cliff < k then
    min ((k : ℚ) / ((cliff : ℚ) * (3 / 2)) + ((k - cliff : ℕ) : ℚ) / (cliff : ℚ) * (1 / 2)) 1
  else
    min ((k : ℚ) / ((cliff : ℚ) * (3 / 2))) 1

/-- The predicted position range as the specification document words it: both
endpoints obtained from the predicted finish position by adding/subtracting
the risk-dependent variance and clamping into
`[realisticCeiling, min (fieldSize, realisticFloor)]`.  (Definition follows
the spec's words, for comparison against the source's formula.) -/
def positionRangeClaimed (race : RaceConfig) (car : CarProfile) (predicted : ℕ) :
    PositionRange :=
  let pe := PACE_CLASS_EFFECTS car.paceClass
  let variance : ℕ := if car.riskProfile = .aggressive then 2 else 1
  let clamp : ℕ → ℕ := fun x => max pe.realisticCeiling (min (min race.fieldSize pe.realisticFloor) x)
  { min := clamp (predicted - variance), max := clamp (predicted + variance) }

/-- Substring test (JS `String.includes`). -/
def isPrefixCl : List Char → List Char → Bool
  | [], _ => true
  | _ :: _, [] => false
  | a :: as, b :: bs => a = b && isPrefixCl as bs

def isInfixCl (pat : List Char) : List Char → Bool
  | [] => pat.isEmpty
  | c :: rest => isPrefixCl pat (c :: rest) || isInfixCl pat rest

def containsSubstr (s pat : String) : Bool := isInfixCl pat.data s.data

/-- Number of parse warnings whose message contains the given fragment. -/
def countWarningsContaining (ws : List String) (pat : String) : ℕ :=
  (ws.filter fun w => containsSubstr w pat).length

-- Concrete documents for the refutations and witnesses.

/-- A document the parser accepts: a 2-car field with a backmarker starting
P1.  (Backmarker realistic ceiling is P10, which exceeds the field size.) -/
def exDocC1 : String :=
  "RACE X LAPS=1 WEATHER=normal FIELD=2\nCAR START=P1 PACE=backmarker RISK=balanced\nTRACK AERO=balanced\nTRACK OVERTAKING=medium CHANCE=0.5\nSTRATEGY \"S\"\nSTINT 1 TIRE=SOFT LAPS=1\nEND"

/-- A parser-accepted document: 2-car field, backmarker starting P2,
conservative risk. -/
def exDocC2 : String :=
  "RACE Y LAPS=1 WEATHER=normal FIELD=2\nCAR START=P2 PACE=backmarker RISK=conservative\nTRACK AERO=balanced\nTRACK OVERTAKING=medium CHANCE=0.5\nSTRATEGY \"T\"\nSTINT 1 TIRE=MEDIUM LAPS=1\nEND"

/-- A parser-accepted document: 20-car field, midfield from P9 (simulated
finish P9, well inside the clamping bounds). -/
def exDocC5 : String :=
  "RACE Z LAPS=1 WEATHER=normal FIELD=20\nCAR START=P9 PACE=midfield RISK=balanced\nTRACK AERO=balanced\nTRACK OVERTAKING=medium CHANCE=0.5\nSTRATEGY \"U\"\nSTINT 1 TIRE=MEDIUM LAPS=1\nEND"

/-- A parser-accepted document whose stint laps (2) differ from the race laps
(3). -/
def exDocC7 : String :=
  "RACE M LAPS=3 WEATHER=normal FIELD=10\nCAR START=P4 PACE=midfield RISK=balanced\nTRACK AERO=balanced\nTRACK OVERTAKING=easy CHANCE=0.7\nSTRATEGY \"V\"\nSTINT 1 TIRE=SOFT LAPS=2\nEND"

/-- The document `exDocC7` parses to. -/
def docC7 : ParsedDSL :=
  { raceConfig := { trackName := "M", totalLaps := 3, weather := .normal, fieldSize := 10 },
    carProfile := { startingGridPosition := 4, paceClass := .midfield, riskProfile := .balanced,
                    targetMinPosition := none },
    trackProfile := { aeroClassification := .balanced, overtakingDifficulty := .easy,
                      overtakingChance := ⟨7, 10, by norm_num⟩, criticalTurns := [],
                      previousWinnerStrategy := none },
    strategy := { label := "V", stints := [{ stintNumber := 1, tireCompound := .SOFT,
                                             lapsInStint := 2 }] } }

-- Concrete simulation inputs for witnesses (no parsing involved).

def raceW : RaceConfig := { trackName := "MONZA", totalLaps := 3, weather := .normal, fieldSize := 20 }

def carW : CarProfile :=
  { startingGridPosition := 12, paceClass := .midfield, riskProfile := .balanced,
    targetMinPosition := none }

def strategyW : Strategy :=
  { label := "W", stints := [{ stintNumber := 1, tireCompound := .SOFT, lapsInStint := 2 },
                             { stintNumber := 2, tireCompound := .MEDIUM, lapsInStint := 1 }] }

def trackProfileW : TrackProfile :=
  { aeroClassification := .balanced, overtakingDifficulty := .medium,
    overtakingChance := 0.5, criticalTurns := [], previousWinnerStrategy := none }

-- ===========================================================================
-- Lemmas: the Q → ℚ bridge
-- ===========================================================================

theorem Q.den_pos_rat (a : Q) : (0 : ℚ) < (a.den : ℚ) := by exact_mod_cast a.dpos

theorem Q.den_ne_zero (a : Q) : ((a.den : ℚ)) ≠ 0 := ne_of_gt a.den_pos_rat

theorem Q.le_iff_toRat {a b : Q} : a ≤ b ↔ a.toRat ≤ b.toRat := by
  show a.num * b.den ≤ b.num * a.den ↔ _
  unfold Q.toRat
  rw [div_le_div_iff₀ a.den_pos_rat b.den_pos_rat]
  constructor
  · intro h; exact_mod_cast h
  · intro h; exact_mod_cast h

theorem Q.lt_iff_toRat {a b : Q} : a < b ↔ a.toRat < b.toRat := by
  show a.num * b.den < b.num * a.den ↔ _
  unfold Q.toRat
  rw [div_lt_div_iff₀ a.den_pos_rat b.den_pos_rat]
  constructor
  · intro h; exact_mod_cast h
  · intro h; exact_mod_cast h

theorem Q.toRat_ofNat (n : ℕ) : (Q.ofNat n).toRat = (n : ℚ) := by
  simp [Q.ofNat, Q.toRat]

theorem Q.toRat_natLit (n : ℕ) : (@OfNat.ofNat Q n _).toRat = (n : ℚ) := by
  show (Q.ofNat n).toRat = (n : ℚ)
  exact Q.toRat_ofNat n

theorem Q.toRat_add (a b : Q) : (a + b).toRat = a.toRat + b.toRat := by
  show (Q.add a b).toRat = _
  unfold Q.add Q.toRat
  have ha := a.den_ne_zero
  have hb := b.den_ne_zero
  push_cast
  field_simp

theorem Q.toRat_sub (a b : Q) : (a - b).toRat = a.toRat - b.toRat := by
  show (Q.sub a b).toRat = _
  unfold Q.sub Q.toRat
  have ha := a.den_ne_zero
  have hb := b.den_ne_zero
  push_cast
  field_simp
  ring

theorem Q.toRat_mul (a b : Q) : (a * b).toRat = a.toRat * b.toRat := by
  show (Q.mul a b).toRat = _
  unfold Q.mul Q.toRat
  have ha := a.den_ne_zero
  have hb := b.den_ne_zero
  push_cast
  field_simp

theorem Q.toRat_div (a b : Q) : (a / b).toRat = a.toRat / b.toRat := by
  show (Q.div a b).toRat = _
  unfold Q.div Q.toRat
  split_ifs with h1 h2
  · have hb : ((b.num : ℚ)) ≠ 0 := by exact_mod_cast ne_of_gt h1
    have ha := a.den_ne_zero
    have hbd := b.den_ne_zero
    push_cast
    field_simp
  · have hb : ((b.num : ℚ)) ≠ 0 := by
      have : b.num ≠ 0 := by omega
      exact_mod_cast this
    have ha := a.den_ne_zero
    have hbd := b.den_ne_zero
    push_cast
    field_simp
  · have hb : b.num = 0 := by omega
    simp [hb, Q.toRat]

theorem Q.lt_of_not_le {a b : Q} (h : ¬ a ≤ b) : b < a := by
  show b.num * a.den < a.num * b.den
  have h' : ¬ (a.num * b.den ≤ b.num * a.den) := h
  omega

theorem Q.toRat_min (a b : Q) : (min a b).toRat = min a.toRat b.toRat := by
  show (if a ≤ b then a else b).toRat = _
  split_ifs with h
  · exact (min_eq_left (Q.le_iff_toRat.1 h)).symm
  · exact (min_eq_right (le_of_lt (Q.lt_iff_toRat.1 (Q.lt_of_not_le h)))).symm

theorem Q.toRat_max (a b : Q) : (max a b).toRat = max a.toRat b.toRat := by
  show (if a ≤ b then b else a).toRat = _
  split_ifs with h
  · exact (max_eq_right (Q.le_iff_toRat.1 h)).symm
  · exact (max_eq_left (le_of_lt (Q.lt_iff_toRat.1 (Q.lt_of_not_le h)))).symm

theorem Q.toRat_scientific (m e : ℕ) :
    ((OfScientific.ofScientific m true e : Q)).toRat = (m : ℚ) / 10 ^ e := by
  show (Q.toRat (if true then _ else _)) = _
  simp only [if_true]
  unfold Q.toRat
  push_cast
  ring

-- ===========================================================================
-- Lemmas: tire wear
-- ===========================================================================

theorem calculateTireWear_eq_wearExpr (k : ℕ) (c : TireCompound) :
    calculateTireWear k c = wearExpr (TIRE_PROFILES c).cliffLap k := rfl

theorem wearExpr_toRat (cliff k : ℕ) : (wearExpr cliff k).toRat = wearRat cliff k := by
  unfold wearExpr wearRat
  split_ifs with h
  · simp only [Q.toRat_min, Q.toRat_add, Q.toRat_div, Q.toRat_mul, Q.toRat_ofNat,
      Q.toRat_scientific, Q.toRat_natLit]
    norm_num
  · simp only [Q.toRat_min, Q.toRat_div, Q.toRat_mul, Q.toRat_ofNat,
      Q.toRat_scientific, Q.toRat_natLit]
    norm_num

theorem wearRat_nonneg (cliff k : ℕ) : 0 ≤ wearRat cliff k := by
  unfold wearRat
  split_ifs with h
  · exact le_min (by positivity) (by norm_num)
  · exact le_min (by positivity) (by norm_num)

theorem wearRat_le_one (cliff k : ℕ) : wearRat cliff k ≤ 1 := by
  unfold wearRat
  split_ifs with h
  · exact min_le_right _ _
  · exact min_le_right _ _

theorem wearRat_mono (cliff : ℕ) (hc : 0 < cliff) {k k' : ℕ} (hkk : k ≤ k') :
    wearRat cliff k ≤ wearRat cliff k' := by
  have hcq : (0 : ℚ) < (cliff : ℚ) := by exact_mod_cast hc
  have hkq : (k : ℚ) ≤ (k' : ℚ) := by exact_mod_cast hkk
  have hbase : (k : ℚ) / ((cliff : ℚ) * (3 / 2)) ≤ (k' : ℚ) / ((cliff : ℚ) * (3 / 2)) := by
    gcongr
  unfold wearRat
  split_ifs with h1 h2 h3
  · refine min_le_min (add_le_add hbase ?_) le_rfl
    have hsub : ((k - cliff : ℕ) : ℚ) ≤ ((k' - cliff : ℕ) : ℚ) := by
      exact_mod_cast Nat.sub_le_sub_right hkk cliff
    gcongr
  · omega
  · refine min_le_min ?_ le_rfl
    have hextra : (0 : ℚ) ≤ ((k' - cliff : ℕ) : ℚ) / (cliff : ℚ) * (1 / 2) := by positivity
    linarith
  · exact min_le_min hbase le_rfl

theorem cliffLap_pos (c : TireCompound) : 0 < (TIRE_PROFILES c).cliffLap := by
  cases c <;> norm_num [TIRE_PROFILES]

theorem calculateTireWear_nonneg (k : ℕ) (c : TireCompound) :
    (0 : Q) ≤ calculateTireWear k c := by
  rw [Q.le_iff_toRat, calculateTireWear_eq_wearExpr, wearExpr_toRat]
  have h0 : ((0 : Q)).toRat = (0 : ℚ) := by
    rw [Q.toRat_natLit]; norm_num
  rw [h0]
  exact wearRat_nonneg _ _

theorem calculateTireWear_le_one (k : ℕ) (c : TireCompound) :
    calculateTireWear k c ≤ (1 : Q) := by
  rw [Q.le_iff_toRat, calculateTireWear_eq_wearExpr, wearExpr_toRat]
  have h1 : ((1 : Q)).toRat = (1 : ℚ) := by
    rw [Q.toRat_natLit]; norm_num
  rw [h1]
  exact wearRat_le_one _ _

theorem calculateTireWear_mono {k k' : ℕ} (hkk : k ≤ k') (c : TireCompound) :
    calculateTireWear k c ≤ calculateTireWear k' c := by
  rw [Q.le_iff_toRat, calculateTireWear_eq_wearExpr, calculateTireWear_eq_wearExpr,
    wearExpr_toRat, wearExpr_toRat]
  exact wearRat_mono _ (cliffLap_pos c) hkk

-- ===========================================================================
-- Lemmas: structure of the simulated lap trace
-- ===========================================================================

theorem runLaps_length (race : RaceConfig) (car : CarProfile) (strategy : Strategy)
    (tp : TrackProfile) (td : TrackData) (stint : Stint) (idx : ℕ) (last : Bool) :
    ∀ (r k : ℕ) (st : RaceState),
      ((runLaps race car strategy tp td stint idx last k r st).1).length = r := by
  intro r
  induction r with
  | zero => intro k st; rfl
  | succ n ih =>
    intro k st
    simp only [runLaps, List.length_cons]
    rw [ih]

theorem runLaps_wear_map (race : RaceConfig) (car : CarProfile) (strategy : Strategy)
    (tp : TrackProfile) (td : TrackData) (stint : Stint) (idx : ℕ) (last : Bool) :
    ∀ (r k : ℕ) (st : RaceState),
      ((runLaps race car strategy tp td stint idx last k r st).1).map (·.tireWear) =
        (List.range r).map (fun m => calculateTireWear (k + m) stint.tireCompound) := by
  intro r
  induction r with
  | zero => intro k st; rfl
  | succ n ih =>
    intro k st
    simp only [runLaps, List.map_cons]
    rw [List.range_succ_eq_map, List.map_cons, List.map_map]
    congr 1
    rw [ih]
    apply List.map_congr_left
    intro m _
    show calculateTireWear (k + 1 + m) stint.tireCompound =
      calculateTireWear (k + Nat.succ m) stint.tireCompound
    have h : k + 1 + m = k + Nat.succ m := by omega
    rw [h]

theorem runStints_wear_map (race : RaceConfig) (car : CarProfile) (strategy : Strategy)
    (tp : TrackProfile) (td : TrackData) :
    ∀ (stints : List Stint) (idx : ℕ) (st : RaceState),
      ((runStints race car strategy tp td idx stints st).1).map (·.tireWear) =
        stints.flatMap (fun s =>
          (List.range s.lapsInStint).map fun m => calculateTireWear (m + 1) s.tireCompound) := by
  intro stints
  induction stints with
  | nil => intro idx st; rfl
  | cons stint rest ih =>
    intro idx st
    simp only [runStints, List.flatMap_cons, List.map_append]
    rw [runLaps_wear_map, ih]
    congr 1
    apply List.map_congr_left
    intro m _
    have : 1 + m = m + 1 := by omega
    rw [this]

theorem runStints_metrics_laps (race : RaceConfig) (car : CarProfile) (strategy : Strategy)
    (tp : TrackProfile) (td : TrackData) :
    ∀ (stints : List Stint) (idx : ℕ) (st : RaceState),
      ((runStints race car strategy tp td idx stints st).2.1).map (·.totalLaps) =
        stints.map (·.lapsInStint) := by
  intro stints
  induction stints with
  | nil => intro idx st; rfl
  | cons stint rest ih =>
    intro idx st
    simp only [runStints, List.map_cons]
    rw [ih]

theorem runStints_lapData_length (race : RaceConfig) (car : CarProfile) (strategy : Strategy)
    (tp : TrackProfile) (td : TrackData) :
    ∀ (stints : List Stint) (idx : ℕ) (st : RaceState),
      ((runStints race car strategy tp td idx stints st).1).length =
        (stints.map (·.lapsInStint)).sum := by
  intro stints
  induction stints with
  | nil => intro idx st; rfl
  | cons stint rest ih =>
    intro idx st
    simp only [runStints, List.length_append, List.map_cons, List.sum_cons]
    rw [runLaps_length, ih]

-- ===========================================================================
-- Lemmas: position bounds
-- ===========================================================================

theorem realisticCeiling_pos (p : PaceClass) : 1 ≤ (PACE_CLASS_EFFECTS p).realisticCeiling := by
  cases p <;> norm_num [PACE_CLASS_EFFECTS]

theorem realisticFloor_pos (p : PaceClass) : 1 ≤ (PACE_CLASS_EFFECTS p).realisticFloor := by
  cases p <;> norm_num [PACE_CLASS_EFFECTS]

theorem ceiling_le_floor (p : PaceClass) :
    (PACE_CLASS_EFFECTS p).realisticCeiling ≤ (PACE_CLASS_EFFECTS p).realisticFloor := by
  cases p <;> norm_num [PACE_CLASS_EFFECTS]

theorem simulateOvertaking_pos_bounds (pos : ℕ) (tp : TrackProfile) (pc : PaceClass)
    (rp : RiskProfile) (lap : ℕ) (fl : Bool) (fs : ℕ) (h1 : 1 ≤ pos) (h2 : pos ≤ fs) :
    1 ≤ (simulateOvertaking pos tp pc rp lap fl fs).newPosition ∧
      (simulateOvertaking pos tp pc rp lap fl fs).newPosition ≤ fs := by
  have hceil := realisticCeiling_pos pc
  have hfloor := realisticFloor_pos pc
  simp only [simulateOvertaking]
  split_ifs <;> dsimp only <;> omega

theorem lapStep_pos_bounds (race : RaceConfig) (car : CarProfile) (strategy : Strategy)
    (tp : TrackProfile) (td : TrackData) (stint : Stint) (idx : ℕ) (last : Bool) (k : ℕ)
    (st : RaceState) (h1 : 1 ≤ st.currentPosition) (h2 : st.currentPosition ≤ race.fieldSize) :
    (1 ≤ (lapStep race car strategy tp td stint idx last k st).1.position ∧
      (lapStep race car strategy tp td stint idx last k st).1.position ≤ race.fieldSize) ∧
    (1 ≤ (lapStep race car strategy tp td stint idx last k st).2.currentPosition ∧
      (lapStep race car strategy tp td stint idx last k st).2.currentPosition ≤ race.fieldSize) := by
  have hb := simulateOvertaking_pos_bounds st.currentPosition tp car.paceClass car.riskProfile
    (st.currentLap + 1) (decide (st.currentLap + 1 = 1)) race.fieldSize h1 h2
  exact ⟨⟨hb.1, hb.2⟩, ⟨hb.1, hb.2⟩⟩

theorem runLaps_pos (race : RaceConfig) (car : CarProfile) (strategy : Strategy)
    (tp : TrackProfile) (td : TrackData) (stint : Stint) (idx : ℕ) (last : Bool) :
    ∀ (r k : ℕ) (st : RaceState), 1 ≤ st.currentPosition → st.currentPosition ≤ race.fieldSize →
      (∀ l ∈ (runLaps race car strategy tp td stint idx last k r st).1,
        1 ≤ l.position ∧ l.position ≤ race.fieldSize) ∧
      (1 ≤ (runLaps race car strategy tp td stint idx last k r st).2.currentPosition ∧
        (runLaps race car strategy tp td stint idx last k r st).2.currentPosition ≤
          race.fieldSize) := by
  intro r
  induction r with
  | zero =>
    intro k st h1 h2
    refine ⟨?_, h1, h2⟩
    intro l hl
    simp only [runLaps, List.not_mem_nil] at hl
  | succ n ih =>
    intro k st h1 h2
    have hb := lapStep_pos_bounds race car strategy tp td stint idx last k st h1 h2
    have ihr := ih (k + 1) (lapStep race car strategy tp td stint idx last k st).2
      hb.2.1 hb.2.2
    constructor
    · intro l hl
      simp only [runLaps, List.mem_cons] at hl
      rcases hl with rfl | hl
      · exact hb.1
      · exact ihr.1 l hl
    · exact ihr.2

theorem runStints_pos (race : RaceConfig) (car : CarProfile) (strategy : Strategy)
    (tp : TrackProfile) (td : TrackData) :
    ∀ (stints : List Stint) (idx : ℕ) (st : RaceState),
      1 ≤ st.currentPosition → st.currentPosition ≤ race.fieldSize →
      (∀ l ∈ (runStints race car strategy tp td idx stints st).1,
        1 ≤ l.position ∧ l.position ≤ race.fieldSize) ∧
      (1 ≤ (runStints race car strategy tp td idx stints st).2.2.2.currentPosition ∧
        (runStints race car strategy tp td idx stints st).2.2.2.currentPosition ≤
          race.fieldSize) := by
  intro stints
  induction stints with
  | nil =>
    intro idx st h1 h2
    refine ⟨?_, h1, h2⟩
    intro l hl
    simp only [runStints, List.not_mem_nil] at hl
  | cons stint rest ih =>
    intro idx st h1 h2
    have hl := runLaps_pos race car strategy tp td stint idx rest.isEmpty
      stint.lapsInStint 1 st h1 h2
    have ihr := ih (idx + 1)
      (runLaps race car strategy tp td stint idx rest.isEmpty 1 stint.lapsInStint st).2
      hl.2.1 hl.2.2
    constructor
    · intro l hmem
      simp only [runStints, List.mem_append] at hmem
      rcases hmem with hmem | hmem
      · exact hl.1 l hmem
      · exact ihr.1 l hmem
    · exact ihr.2

-- ===========================================================================
-- Lemmas: substring containment and result assembly
-- ===========================================================================

theorem isPrefixCl_self_append : ∀ (pat rest : List Char), isPrefixCl pat (pat ++ rest) = true := by
  intro pat
  induction pat with
  | nil => intro rest; rfl
  | cons p ps ih => intro rest; simp [isPrefixCl, ih]

theorem isInfixCl_append_right (pat : List Char) :
    ∀ (pre s : List Char), isInfixCl pat s = true → isInfixCl pat (pre ++ s) = true := by
  intro pre
  induction pre with
  | nil => intro s h; simpa using h
  | cons c cs ih =>
    intro s h
    simp only [List.cons_append, isInfixCl, Bool.or_eq_true]
    right
    exact ih s h

theorem isInfixCl_prefix : ∀ (pat rest : List Char), isInfixCl pat (pat ++ rest) = true := by
  intro pat rest
  cases pat with
  | nil =>
    cases rest with
    | nil => rfl
    | cons c cs => simp [isInfixCl, isPrefixCl]
  | cons p ps =>
    simp only [List.cons_append, isInfixCl, Bool.or_eq_true]
    left
    have := isPrefixCl_self_append (p :: ps) rest
    simpa using this

theorem lapMismatchWarning_contains (a b : ℕ) :
    containsSubstr (lapMismatchWarning a b) "does not match race laps" = true := by
  unfold containsSubstr lapMismatchWarning
  have hdec : ") does not match race laps (" = ") " ++ "does not match race laps" ++ " (" := by
    decide
  rw [hdec]
  simp only [String.data_append, List.append_assoc]
  apply isInfixCl_append_right
  apply isInfixCl_append_right
  apply isInfixCl_append_right
  exact isInfixCl_prefix _ _

theorem wetTiresWarning_not_contains :
    containsSubstr wetTiresWarning "does not match race laps" = false := by decide

theorem countWarningsContaining_append (xs ys : List String) (pat : String) :
    countWarningsContaining (xs ++ ys) pat =
      countWarningsContaining xs pat + countWarningsContaining ys pat := by
  unfold countWarningsContaining
  simp [List.filter_append]

theorem finalize_exclusive (raw : String) (st : PState) :
    ((finalize raw st).success = true ∧ (finalize raw st).data.isSome = true ∧
      (finalize raw st).errors = []) ∨
    ((finalize raw st).success = false ∧ (finalize raw st).data = none ∧
      (finalize raw st).errors ≠ []) := by
  simp only [finalize]
  split
  next h =>
    right
    exact ⟨rfl, rfl, List.ne_nil_of_length_pos h⟩
  next h =>
    split
    · left
      exact ⟨rfl, rfl, rfl⟩
    · right
      refine ⟨rfl, rfl, ?_⟩
      simp

theorem countWarningsContaining_singleton (w pat : String) :
    countWarningsContaining [w] pat = if containsSubstr w pat then 1 else 0 := by
  unfold countWarningsContaining
  by_cases h : containsSubstr w pat <;> simp [List.filter, h]

theorem finalize_data_sections (raw : String) (st : PState) (d : ParsedDSL)
    (h : (finalize raw st).data = some d) :
    st.raceConfig = some d.raceConfig ∧ st.strategy = some d.strategy := by
  simp only [finalize] at h
  split at h
  · simp at h
  · split at h
    next =>
      cases h
      exact ⟨by assumption, by assumption⟩
    next => simp at h

theorem finalize_warnings_of_sections (raw : String) (st : PState) (rc : RaceConfig)
    (sg : Strategy) (hrc : st.raceConfig = some rc) (hsg : st.strategy = some sg) :
    (finalize raw st).warnings =
      (if sumStintLaps sg.stints ≠ rc.totalLaps then
        [lapMismatchWarning (sumStintLaps sg.stints) rc.totalLaps]
      else []) ++
      (if rc.weather = .wet ∧
          ¬ (sg.stints.any fun s => s.tireCompound = .INTERMEDIATE || s.tireCompound = .WET) then
        [wetTiresWarning]
      else []) := by
  simp only [finalize, hrc, hsg]
  split
  · rfl
  · split <;> rfl

-- ===========================================================================
-- Lemmas: simulateRace projections
-- ===========================================================================

theorem simulateRace_lapData (race : RaceConfig) (car : CarProfile) (strategy : Strategy)
    (tp : TrackProfile) :
    (simulateRace race car strategy tp).lapData =
      (runStints race car strategy tp (getTrackData race.trackName) 0 strategy.stints
        { currentPosition := car.startingGridPosition, totalRaceTime := 0, currentLap := 0,
          fuelLoad := (getTrackData race.trackName).startingFuelKg,
          totalPitTimeLoss := 0 }).1 := rfl

theorem simulateRace_stintMetrics (race : RaceConfig) (car : CarProfile) (strategy : Strategy)
    (tp : TrackProfile) :
    (simulateRace race car strategy tp).stintMetrics =
      (runStints race car strategy tp (getTrackData race.trackName) 0 strategy.stints
        { currentPosition := car.startingGridPosition, totalRaceTime := 0, currentLap := 0,
          fuelLoad := (getTrackData race.trackName).startingFuelKg,
          totalPitTimeLoss := 0 }).2.1 := rfl

theorem simulateRace_predicted (race : RaceConfig) (car : CarProfile) (strategy : Strategy)
    (tp : TrackProfile) :
    (simulateRace race car strategy tp).predictedFinishPosition =
      min (PACE_CLASS_EFFECTS car.paceClass).realisticFloor
        (max (PACE_CLASS_EFFECTS car.paceClass).realisticCeiling
          (runStints race car strategy tp (getTrackData race.trackName) 0 strategy.stints
            { currentPosition := car.startingGridPosition, totalRaceTime := 0, currentLap := 0,
              fuelLoad := (getTrackData race.trackName).startingFuelKg,
              totalPitTimeLoss := 0 }).2.2.2.currentPosition) := rfl

theorem simulateRace_range_def (race : RaceConfig) (car : CarProfile) (strategy : Strategy)
    (tp : TrackProfile) :
    (simulateRace race car strategy tp).predictedPositionRange =
      { min := max (PACE_CLASS_EFFECTS car.paceClass).realisticCeiling
          ((simulateRace race car strategy tp).predictedFinishPosition -
            (if car.riskProfile = .aggressive then 2
             else if car.riskProfile = .conservative then 1 else 1)),
        max := min (min race.fieldSize (PACE_CLASS_EFFECTS car.paceClass).realisticFloor)
          ((simulateRace race car strategy tp).predictedFinishPosition +
            (if car.riskProfile = .aggressive then 2
             else if car.riskProfile = .conservative then 1 else 1) + 1) } := rfl

-- ===========================================================================
-- Claim theorems
-- ===========================================================================

/-- Claim C3: for every input string, `parseStrategyDSL` returns a result
that is exclusive — either `success` with a populated document and an empty
error list, or failure with a non-empty diagnostic list and no document.
(Totality — "it never throws" — is witnessed by the embedding itself being a
total function.) -/
theorem C3_parse_total_exclusive (s : String) :
    ((parseStrategyDSL s).success = true ∧ (parseStrategyDSL s).data.isSome = true ∧
      (parseStrategyDSL s).errors = []) ∨
    ((parseStrategyDSL s).success = false ∧ (parseStrategyDSL s).data = none ∧
      (parseStrategyDSL s).errors ≠ []) := by
  unfold parseStrategyDSL
  exact finalize_exclusive _ _

/-- Claim C7: for every document that parses successfully, the warning list
contains exactly one warning whose message contains "does not match race laps"
when the stint-lap sum differs from the race laps, and no such warning when
they agree. -/
theorem C7_lap_mismatch_warning (s : String) (d : ParsedDSL)
    (h : (parseStrategyDSL s).data = some d) :
    (parseStrategyDSL s).success = true ∧
    countWarningsContaining (parseStrategyDSL s).warnings "does not match race laps" =
      (if sumStintLaps d.strategy.stints ≠ d.raceConfig.totalLaps then 1 else 0) := by
  unfold parseStrategyDSL at h ⊢
  obtain ⟨hrc, hsg⟩ := finalize_data_sections _ _ d h
  rcases finalize_exclusive s (parsePreviousWinnerSec ((splitLines s.data).map trimRightCl)
      (parseCriticalTurnsSec ((splitLines s.data).map trimRightCl)
        (parseStrategySec ((splitLines s.data).map trimRightCl)
          (parseTrackSec ((splitLines s.data).map trimRightCl)
            (parseCarSec ((splitLines s.data).map trimRightCl)
              (parseRaceSec ((splitLines s.data).map trimRightCl)
                ⟨0, [], none, none, none, none, none, none, [], none⟩)))))) with
    hok | hfail
  · refine ⟨hok.1, ?_⟩
    rw [finalize_warnings_of_sections _ _ d.raceConfig d.strategy hrc hsg,
      countWarningsContaining_append]
    have hwet0 : countWarningsContaining
        (if d.raceConfig.weather = .wet ∧
            ¬ (d.strategy.stints.any fun st =>
              st.tireCompound = .INTERMEDIATE || st.tireCompound = .WET) then
          [wetTiresWarning]
        else []) "does not match race laps" = 0 := by
      split_ifs
      · rw [countWarningsContaining_singleton, wetTiresWarning_not_contains]
        simp
      · rfl
    rw [hwet0]
    split_ifs with hm
    · rw [countWarningsContaining_singleton, lapMismatchWarning_contains]
      simp
    · rfl
  · rw [hfail.2.1] at h
    simp at h

/-- Claim C4: `simulateRace` is deterministic — identical `RaceConfig`,
`CarProfile`, `Strategy` and `TrackProfile` inputs produce identical
`SimulationResult` values.  (The embedding is a pure function: the source
consults no clock or randomness; its "random" seeds are integer hash formulas
over lap number and position.) -/
theorem C4_simulateRace_deterministic (r₁ r₂ : RaceConfig) (c₁ c₂ : CarProfile)
    (s₁ s₂ : Strategy) (t₁ t₂ : TrackProfile) (hr : r₁ = r₂) (hc : c₁ = c₂) (hs : s₁ = s₂)
    (ht : t₁ = t₂) : simulateRace r₁ c₁ s₁ t₁ = simulateRace r₂ c₂ s₂ t₂ := by
  subst hr; subst hc; subst hs; subst ht; rfl

theorem C4_witness :
    raceW = raceW ∧
    simulateRace raceW carW strategyW trackProfileW =
      simulateRace raceW carW strategyW trackProfileW :=
  ⟨rfl, C4_simulateRace_deterministic raceW raceW carW carW strategyW strategyW trackProfileW
    trackProfileW rfl rfl rfl rfl⟩

/-- Claim C9: the sum of `StintMetrics.totalLaps` over all stints equals the
number of `LapData` records in the produced lap trace. -/
theorem C9_stint_laps_sum (race : RaceConfig) (car : CarProfile) (strategy : Strategy)
    (tp : TrackProfile) :
    (((simulateRace race car strategy tp).stintMetrics).map (·.totalLaps)).sum =
      ((simulateRace race car strategy tp).lapData).length := by
  rw [simulateRace_stintMetrics, simulateRace_lapData, runStints_metrics_laps,
    runStints_lapData_length]

/-- Claim C10: with a starting grid position inside `[1, fieldSize]`, every
recorded lap's running position stays inside `[1, fieldSize]`: the per-lap
overtaking update never leaves the field. -/
theorem C10_lap_positions_in_range (race : RaceConfig) (car : CarProfile) (strategy : Strategy)
    (tp : TrackProfile) (h1 : 1 ≤ car.startingGridPosition)
    (h2 : car.startingGridPosition ≤ race.fieldSize) :
    ∀ l ∈ (simulateRace race car strategy tp).lapData,
      1 ≤ l.position ∧ l.position ≤ race.fieldSize := by
  rw [simulateRace_lapData]
  exact (runStints_pos race car strategy tp (getTrackData race.trackName) strategy.stints 0
    _ h1 h2).1

theorem C10_witness :
    (1 : ℕ) ≤ 12 ∧ (12 : ℕ) ≤ 20 ∧
    ∀ l ∈ (simulateRace raceW carW strategyW trackProfileW).lapData,
      1 ≤ l.position ∧ l.position ≤ raceW.fieldSize :=
  ⟨by decide, by decide,
    C10_lap_positions_in_range raceW carW strategyW trackProfileW (by decide) (by decide)⟩

/-- Claim C1 — counterexample.  The parser accepts a FIELD=2 race with a
backmarker starting P1, but the simulation's predicted finish position is
clamped up to the backmarker ceiling P10, which lies outside `[1, fieldSize]`
(10 > 2). -/
theorem C1_counterexample :
    (parseStrategyDSL exDocC1).success = true ∧
    ((parseStrategyDSL exDocC1).data.map fun d =>
      ((simulateRace d.raceConfig d.carProfile d.strategy d.trackProfile).predictedFinishPosition,
        d.raceConfig.fieldSize, d.carProfile.startingGridPosition)) = some (10, 2, 1) ∧
    ¬ ((10 : ℕ) ≤ 2) :=
  ⟨by decide, by decide, by decide⟩

/-- Claim C1 — amended: `predictedFinishPosition` always lies in
`[realisticCeiling, realisticFloor]` and is at least 1; it additionally stays
within the field size provided the pace class's realistic ceiling does not
exceed the field size. -/
theorem C1_amended_predicted_bounds (race : RaceConfig) (car : CarProfile) (strategy : Strategy)
    (tp : TrackProfile) (h1 : 1 ≤ car.startingGridPosition)
    (h2 : car.startingGridPosition ≤ race.fieldSize) :
    ((PACE_CLASS_EFFECTS car.paceClass).realisticCeiling ≤
        (simulateRace race car strategy tp).predictedFinishPosition ∧
      (simulateRace race car strategy tp).predictedFinishPosition ≤
        (PACE_CLASS_EFFECTS car.paceClass).realisticFloor ∧
      1 ≤ (simulateRace race car strategy tp).predictedFinishPosition) ∧
    ((PACE_CLASS_EFFECTS car.paceClass).realisticCeiling ≤ race.fieldSize →
      (simulateRace race car strategy tp).predictedFinishPosition ≤ race.fieldSize) := by
  have hceil := realisticCeiling_pos car.paceClass
  have hcf := ceiling_le_floor car.paceClass
  have hst := (runStints_pos race car strategy tp (getTrackData race.trackName) strategy.stints
    0 { currentPosition := car.startingGridPosition, totalRaceTime := 0, currentLap := 0,
        fuelLoad := (getTrackData race.trackName).startingFuelKg, totalPitTimeLoss := 0 }
    h1 h2).2
  rw [simulateRace_predicted]
  exact ⟨⟨by omega, by omega, by omega⟩, fun hcl => by omega⟩

theorem C1_witness :
    (1 : ℕ) ≤ 12 ∧ (12 : ℕ) ≤ 20 ∧
    ((PACE_CLASS_EFFECTS carW.paceClass).realisticCeiling ≤
        (simulateRace raceW carW strategyW trackProfileW).predictedFinishPosition ∧
      (simulateRace raceW carW strategyW trackProfileW).predictedFinishPosition ≤
        (PACE_CLASS_EFFECTS carW.paceClass).realisticFloor ∧
      1 ≤ (simulateRace raceW carW strategyW trackProfileW).predictedFinishPosition) ∧
    ((PACE_CLASS_EFFECTS carW.paceClass).realisticCeiling ≤ raceW.fieldSize →
      (simulateRace raceW carW strategyW trackProfileW).predictedFinishPosition ≤
        raceW.fieldSize) :=
  ⟨by decide, by decide,
    C1_amended_predicted_bounds raceW carW strategyW trackProfileW (by decide) (by decide)⟩

/-- Claim C2 — counterexample.  On a parser-accepted FIELD=2 backmarker
document, `predictedFinishPosition = 10` exceeds
`predictedPositionRange.max = 2`, violating
`min ≤ predictedFinishPosition ≤ max`. -/
theorem C2_counterexample :
    (parseStrategyDSL exDocC2).success = true ∧
    ((parseStrategyDSL exDocC2).data.map fun d =>
      ((simulateRace d.raceConfig d.carProfile d.strategy d.trackProfile).predictedFinishPosition,
        (simulateRace d.raceConfig d.carProfile d.strategy
          d.trackProfile).predictedPositionRange)) =
      some (10, { min := 10, max := 2 }) ∧
    ¬ ((10 : ℕ) ≤ 2) :=
  ⟨by decide, by decide, by decide⟩

/-- Claim C2 — amended: `predictedPositionRange.min ≤ predictedFinishPosition`
holds for every validated document, and
`predictedFinishPosition ≤ predictedPositionRange.max` holds provided the pace
class's realistic ceiling does not exceed the field size. -/
theorem C2_amended_range_brackets (race : RaceConfig) (car : CarProfile) (strategy : Strategy)
    (tp : TrackProfile) (h1 : 1 ≤ car.startingGridPosition)
    (h2 : car.startingGridPosition ≤ race.fieldSize) :
    ((simulateRace race car strategy tp).predictedPositionRange.min ≤
      (simulateRace race car strategy tp).predictedFinishPosition) ∧
    ((PACE_CLASS_EFFECTS car.paceClass).realisticCeiling ≤ race.fieldSize →
      (simulateRace race car strategy tp).predictedFinishPosition ≤
        (simulateRace race car strategy tp).predictedPositionRange.max) := by
  have hceil := realisticCeiling_pos car.paceClass
  have hcf := ceiling_le_floor car.paceClass
  have hst := (runStints_pos race car strategy tp (getTrackData race.trackName) strategy.stints
    0 { currentPosition := car.startingGridPosition, totalRaceTime := 0, currentLap := 0,
        fuelLoad := (getTrackData race.trackName).startingFuelKg, totalPitTimeLoss := 0 }
    h1 h2).2
  rw [simulateRace_range_def]
  dsimp only
  rw [simulateRace_predicted]
  exact ⟨by omega, fun hcl => by omega⟩

theorem C2_witness :
    (1 : ℕ) ≤ 12 ∧ (12 : ℕ) ≤ 20 ∧
    ((simulateRace raceW carW strategyW trackProfileW).predictedPositionRange.min ≤
      (simulateRace raceW carW strategyW trackProfileW).predictedFinishPosition) ∧
    ((PACE_CLASS_EFFECTS carW.paceClass).realisticCeiling ≤ raceW.fieldSize →
      (simulateRace raceW carW strategyW trackProfileW).predictedFinishPosition ≤
        (simulateRace raceW carW strategyW trackProfileW).predictedPositionRange.max) :=
  ⟨by decide, by decide,
    C2_amended_range_brackets raceW carW strategyW trackProfileW (by decide) (by decide)⟩

/-- Claim C5 — counterexample.  On a parser-accepted document whose simulated
finish is P9 (midfield, balanced), the code's range is `[8, 11]`: the upper
endpoint is `predicted + variance + 1 = 11`, whereas the claimed
"± variance, clamped" formula gives `[8, 10]`. -/
theorem C5_counterexample :
    ((parseStrategyDSL exDocC5).data.map fun d =>
      ((simulateRace d.raceConfig d.carProfile d.strategy d.trackProfile).predictedFinishPosition,
        (simulateRace d.raceConfig d.carProfile d.strategy d.trackProfile).predictedPositionRange,
        positionRangeClaimed d.raceConfig d.carProfile
          (simulateRace d.raceConfig d.carProfile d.strategy
            d.trackProfile).predictedFinishPosition)) =
      some (9, { min := 8, max := 11 }, { min := 8, max := 10 }) ∧
    ({ min := 8, max := 11 } : PositionRange) ≠ { min := 8, max := 10 } :=
  ⟨by decide, by decide⟩

/-- Claim C5 — amended: the position range is
`min = max(realisticCeiling, predicted − variance)` and
`max = min(min(fieldSize, realisticFloor), predicted + variance + 1)` with
variance 2 for aggressive and 1 otherwise: only the upper endpoint is clamped
by `min(fieldSize, realisticFloor)`, only the lower one by the ceiling, and
the upper endpoint sits at `variance + 1` above the prediction, not
`variance`. -/
theorem C5_amended_position_range (race : RaceConfig) (car : CarProfile) (strategy : Strategy)
    (tp : TrackProfile) :
    (simulateRace race car strategy tp).predictedPositionRange =
      { min := max (PACE_CLASS_EFFECTS car.paceClass).realisticCeiling
          ((simulateRace race car strategy tp).predictedFinishPosition -
            (if car.riskProfile = .aggressive then 2 else 1)),
        max := min (min race.fieldSize (PACE_CLASS_EFFECTS car.paceClass).realisticFloor)
          ((simulateRace race car strategy tp).predictedFinishPosition +
            (if car.riskProfile = .aggressive then 2 else 1) + 1) } := by
  rw [simulateRace_range_def]
  obtain ⟨s, pc, rp, t⟩ := car
  cases rp <;> rfl

/-- Claim C6: per-lap tire degradation time is
`degradationRate × weatherMultiplier × riskTireManagement × lapInStint` up to
the compound's cliff lap; past the cliff an additional penalty
`(rate·cliffMultiplier − rate) · min(lapsAfterCliff, 10)/10 · lapInStint` is
added, whose ramp factor grows linearly over the 10 laps after the cliff and
is capped (`min(lapsAfterCliff, 10) = 10`) from the 10th lap past the cliff
on. -/
theorem C6_tire_degradation_formula (c : TireCompound) (k : ℕ) (w : Weather)
    (r : RiskProfile) :
    (k ≤ (TIRE_PROFILES c).cliffLap →
      (calculateTireDegradation c k w r).toRat =
        (TIRE_PROFILES c).degradationRate.toRat * (WEATHER_DEGRADATION_MULTIPLIER w).toRat *
          (RISK_PROFILE_EFFECTS r).tireManagement.toRat * k) ∧
    ((TIRE_PROFILES c).cliffLap < k →
      (calculateTireDegradation c k w r).toRat =
        (TIRE_PROFILES c).degradationRate.toRat * (WEATHER_DEGRADATION_MULTIPLIER w).toRat *
          (RISK_PROFILE_EFFECTS r).tireManagement.toRat * k +
        ((TIRE_PROFILES c).degradationRate.toRat * (TIRE_PROFILES c).cliffMultiplier.toRat -
          (TIRE_PROFILES c).degradationRate.toRat) *
          ((min (k - (TIRE_PROFILES c).cliffLap) 10 : ℕ) : ℚ) / 10 * k) ∧
    ((TIRE_PROFILES c).cliffLap + 10 ≤ k → min (k - (TIRE_PROFILES c).cliffLap) 10 = 10) := by
  refine ⟨?_, ?_, fun h => by omega⟩
  · intro h
    simp only [calculateTireDegradation]
    rw [if_neg (by omega)]
    simp only [Q.toRat_mul, Q.toRat_ofNat]
  · intro h
    simp only [calculateTireDegradation]
    rw [if_pos h]
    simp only [Q.toRat_mul, Q.toRat_add, Q.toRat_sub, Q.toRat_div, Q.toRat_ofNat]
    rw [show ((10 : Q)).toRat = (10 : ℚ) from Q.toRat_natLit 10]
    ring

theorem C6_witness :
    ((5 : ℕ) ≤ (TIRE_PROFILES TireCompound.SOFT).cliffLap ∧
      (calculateTireDegradation .SOFT 5 .normal .balanced).toRat =
        (TIRE_PROFILES TireCompound.SOFT).degradationRate.toRat *
          (WEATHER_DEGRADATION_MULTIPLIER Weather.normal).toRat *
          (RISK_PROFILE_EFFECTS RiskProfile.balanced).tireManagement.toRat * 5) ∧
    ((TIRE_PROFILES TireCompound.SOFT).cliffLap + 10 ≤ 30 ∧
      min (30 - (TIRE_PROFILES TireCompound.SOFT).cliffLap) 10 = 10) :=
  ⟨⟨by decide, (C6_tire_degradation_formula .SOFT 5 .normal .balanced).1 (by decide)⟩,
    ⟨by decide, (C6_tire_degradation_formula .SOFT 30 .normal .balanced).2.2 (by decide)⟩⟩

/-- Claim C8: the recorded tire wear of every simulated lap is
`calculateTireWear lapInStint compound` — so the wear trace is, stint by
stint, `calculateTireWear 1 c, ..., calculateTireWear laps c` (each new stint
restarting from lap 1 of its compound) — and `calculateTireWear` is bounded in
`[0, 1]` and monotone in the lap-in-stint, so wear lies in `[0, 1]`, is
non-decreasing within a stint, and resets after each pit stop to the value
derived from lap 1 of the new compound. -/
theorem C8_tire_wear (race : RaceConfig) (car : CarProfile) (strategy : Strategy)
    (tp : TrackProfile) :
    ((simulateRace race car strategy tp).lapData.map (·.tireWear) =
      strategy.stints.flatMap fun s =>
        (List.range s.lapsInStint).map fun m => calculateTireWear (m + 1) s.tireCompound) ∧
    (∀ (k : ℕ) (c : TireCompound),
      (0 : Q) ≤ calculateTireWear k c ∧ calculateTireWear k c ≤ 1) ∧
    (∀ (k k' : ℕ) (c : TireCompound), k ≤ k' →
      calculateTireWear k c ≤ calculateTireWear k' c) := by
  refine ⟨?_, fun k c => ⟨calculateTireWear_nonneg k c, calculateTireWear_le_one k c⟩,
    fun k k' c h => calculateTireWear_mono h c⟩
  rw [simulateRace_lapData]
  exact runStints_wear_map race car strategy tp (getTrackData race.trackName) strategy.stints 0 _

theorem C8_witness :
    ((simulateRace raceW carW strategyW trackProfileW).lapData.map (·.tireWear) =
      strategyW.stints.flatMap fun s =>
        (List.range s.lapsInStint).map fun m => calculateTireWear (m + 1) s.tireCompound) ∧
    ((1 : ℕ) ≤ 2 ∧ calculateTireWear 1 .SOFT ≤ calculateTireWear 2 .SOFT) :=
  ⟨(C8_tire_wear raceW carW strategyW trackProfileW).1,
    ⟨by decide, (C8_tire_wear raceW carW strategyW trackProfileW).2.2 1 2 .SOFT (by decide)⟩⟩

theorem C7_witness :
    (parseStrategyDSL exDocC7).data = some docC7 ∧
    ((parseStrategyDSL exDocC7).success = true ∧
      countWarningsContaining (parseStrategyDSL exDocC7).warnings "does not match race laps" =
        (if sumStintLaps docC7.strategy.stints ≠ docC7.raceConfig.totalLaps then 1 else 0)) :=
  ⟨by decide, C7_lap_mismatch_warning exDocC7 docC7 (by decide)⟩
